import Mathlib

/-!
Verification development for the Tiered Knowledge Retrieval and
Context-Assembly Engine of the Emergent-Learning-Framework repository
(`query/query.py`).  The Python source is shallowly embedded: pure
functions become Lean functions, SQLite reads become pure functions over
an explicit database value, the connection pool becomes an explicit state
machine, and float arithmetic is idealised as real (or rational, where the
source only compares and never rounds) arithmetic.  Timestamps are
modelled as integer seconds since an epoch; `timedelta.days` becomes floor
division by 86400.  Dynamic parts of error-message strings (Python
f-string interpolations) are elided; error *codes* are modelled exactly.
-/

namespace ELF

/-- The four error kinds of `query.py` (`ValidationError` QS001,
`DatabaseError` QS002, `TimeoutError` QS003, `ConfigurationError` QS004). -/
inductive QSErr where
  | validation (msg : String)
  | database (msg : String)
  | timeout (msg : String)
  | configuration (msg : String)
deriving Repr, DecidableEq

/-- Stable error code attached to each error class (`error_code` attribute). -/
def QSErr.code : QSErr → String
  | .validation _ => "QS001"
  | .database _ => "QS002"
  | .timeout _ => "QS003"
  | .configuration _ => "QS004"

/-- Character class of the validation regex `[a-zA-Z0-9\-_.]`, shared by
`_validate_domain` and `_validate_tags`. -/
def isDomainTagChar (c : Char) : Bool :=
  if ('a' ≤ c ∧ c ≤ 'z') ∨ ('A' ≤ c ∧ c ≤ 'Z') ∨ ('0' ≤ c ∧ c ≤ '9')
     ∨ c = '-' ∨ c = '_' ∨ c = '.' then true else false

/-- Python `str.isspace` characters relevant to `str.strip()` (ASCII range). -/
def isPySpace (c : Char) : Bool :=
  if c = ' ' ∨ c = '\t' ∨ c = '\n' ∨ c = '\r' ∨ c = '\x0b' ∨ c = '\x0c'
  then true else false

/-- Python `str.strip()` on a list of characters. -/
def pyStrip (s : List Char) : List Char :=
  ((s.dropWhile isPySpace).reverse.dropWhile isPySpace).reverse

/-- Python `str.strip()` on a `String`. -/
def pyStripStr (s : String) : String :=
  String.mk (pyStrip s.toList)

/-- Semantics of `re.match(r'^[a-zA-Z0-9\-_.]+$', s)`: one or more charset
characters spanning the whole string, where the `$` anchor also matches just
before one trailing newline (Python `re` semantics). -/
def regexDomainMatch (s : List Char) : Bool :=
  (!s.isEmpty && s.all isDomainTagChar) ||
  (s.getLast? == some '\n' && !s.dropLast.isEmpty && s.dropLast.all isDomainTagChar)

/-- `QuerySystem._validate_domain`: empty check, length cap 100, charset
regex, then returns `domain.strip()`. -/
def validateDomain (domain : String) : Except QSErr String :=
  if domain = "" then
    .error (.validation "Domain cannot be empty. Provide a valid domain name. [QS001]")
  else if domain.length > 100 then
    .error (.validation "Domain exceeds maximum length of 100 characters. [QS001]")
  else if !regexDomainMatch domain.toList then
    .error (.validation "Domain contains invalid characters. Use only alphanumeric, hyphen, underscore, and dot. [QS001]")
  else
    .ok (pyStripStr domain)

/-- Argument to `_validate_limit`: Python is dynamically typed, so a caller
may pass a non-integer; `isinstance(limit, int)` distinguishes the two. -/
inductive LimitArg where
  | int (n : ℤ)
  | nonInt
deriving Repr, DecidableEq

/-- `QuerySystem._validate_limit`: integer check, `MIN_LIMIT = 1`,
`MAX_LIMIT = 1000`; returns the limit unchanged. -/
def validateLimit : LimitArg → Except QSErr ℤ
  | .nonInt => .error (.validation "Limit must be an integer. [QS001]")
  | .int n =>
    if n < 1 then .error (.validation "Limit must be at least 1. [QS001]")
    else if n > 1000 then .error (.validation "Limit exceeds maximum of 1000. [QS001]")
    else .ok n

/-- `QuerySystem._validate_query`: non-empty, at most `MAX_QUERY_LENGTH =
10000` characters; returns `query.strip()`. -/
def validateQuery (query : String) : Except QSErr String :=
  if query = "" then
    .error (.validation "Query string cannot be empty. [QS001]")
  else if query.length > 10000 then
    .error (.validation "Query exceeds maximum length of 10000 characters. [QS001]")
  else
    .ok (pyStripStr query)

/-- One tag of `_validate_tags` after the `strip`/skip-empty step: length cap
`MAX_TAG_LENGTH = 50` and the charset regex (same `$`-newline semantics). -/
def tagCheck (tag : List Char) : Except QSErr (List Char) :=
  if tag.length > 50 then
    .error (.validation "Tag exceeds maximum length of 50. [QS001]")
  else if !regexDomainMatch tag then
    .error (.validation "Tag contains invalid characters. [QS001]")
  else
    .ok tag

/-- The per-tag loop of `_validate_tags` over already-stripped tags. -/
def tagLoop : List (List Char) → Except QSErr (List (List Char))
  | [] => .ok []
  | t :: ts =>
    let t := pyStrip t
    if t.isEmpty then tagLoop ts
    else
      match tagCheck t with
      | .error e => .error e
      | .ok v =>
        match tagLoop ts with
        | .error e => .error e
        | .ok vs => .ok (v :: vs)

/-- `QuerySystem._validate_tags`: list size cap `MAX_TAG_COUNT = 50`,
per-tag strip/skip/length/charset checks, and a final non-empty check. -/
def validateTags (tags : List String) : Except QSErr (List String) :=
  if tags.length > 50 then
    .error (.validation "Too many tags. [QS001]")
  else
    match tagLoop (tags.map String.toList) with
    | .error e => .error e
    | .ok [] => .error (.validation "No valid tags provided after filtering. [QS001]")
    | .ok vs => .ok (vs.map String.mk)

/-! ### SQL LIKE matching and `escape_like` -/

/-- `escape_like` acts per character: backslash, percent and underscore each
get a backslash prepended (the three sequential `str.replace` calls of the
source commute with this per-character view because later passes never touch
characters introduced by earlier ones, except the doubling of backslashes
which the first pass performs). -/
def escapeLikeChar (c : Char) : List Char :=
  if c = '\\' then ['\\', '\\']
  else if c = '%' then ['\\', '%']
  else if c = '_' then ['\\', '_']
  else [c]

/-- `escape_like(s)` from `query.py`. -/
def escapeLike (s : List Char) : List Char :=
  s.flatMap escapeLikeChar

/-- SQLite LIKE is case-insensitive for the ASCII letters: fold A-Z to a-z. -/
def likeFold (c : Char) : Char :=
  if 'A' ≤ c ∧ c ≤ 'Z' then Char.ofNat (c.toNat + 32) else c

/-- Fuel-indexed SQLite LIKE matcher *without* an ESCAPE clause, which is how
`query_by_tags` executes `tags LIKE ?`: `%` matches any sequence, `_` matches
exactly one character, and every other character — including backslash —
matches itself (ASCII case-insensitively).  Each recursive call shrinks
`pattern.length + s.length`, so fuel `pattern.length + s.length + 1` is exact. -/
def likeMatchAux : Nat → List Char → List Char → Bool
  | 0, _, _ => false
  | _ + 1, [], s => s.isEmpty
  | fuel + 1, '%' :: ps, s =>
    likeMatchAux fuel ps s ||
      (match s with
       | [] => false
       | _ :: s2 => likeMatchAux fuel ('%' :: ps) s2)
  | _fuel + 1, '_' :: _ps, [] => false
  | fuel + 1, '_' :: ps, _ :: s2 => likeMatchAux fuel ps s2
  | _fuel + 1, _p :: _ps, [] => false
  | fuel + 1, p :: ps, c :: s2 => (likeFold p == likeFold c) && likeMatchAux fuel ps s2

/-- SQLite `s LIKE pat` (no ESCAPE clause). -/
def likeMatch (pat s : List Char) : Bool :=
  likeMatchAux (pat.length + s.length + 1) pat s

/-- The LIKE pattern `query_by_tags` binds for one validated tag:
`f"%{escape_like(tag)}%"`. -/
def tagLikePattern (tag : List Char) : List Char :=
  '%' :: (escapeLike tag ++ ['%'])

/-- Boolean prefix test on character lists. -/
def isPrefixB : List Char → List Char → Bool
  | [], _ => true
  | _ :: _, [] => false
  | a :: as, b :: bs => (a == b) && isPrefixB as bs

/-- Boolean substring-containment test: `needle` occurs contiguously in the
second list.  This captures "the tags field contains the tag literally". -/
def containsSub (needle : List Char) : List Char → Bool
  | [] => needle.isEmpty
  | c :: rest => isPrefixB needle (c :: rest) || containsSub needle rest

/-! ### Relevance scorer (`_calculate_relevance_score`)

Float arithmetic is idealised as real arithmetic.  The item dictionary is
reduced to the three fields the scorer reads: `created_at` (`none` models a
missing or unparseable timestamp, for which the source skips the recency
factor), `domain`, and `times_validated` (`learning.get(..., 0)`). -/

/-- The fields of a stored item that `_calculate_relevance_score` reads. -/
structure KnowledgeItem where
  createdAt : Option ℤ
  domain : Option String
  timesValidated : ℤ
deriving Repr, DecidableEq

/-- `(datetime.now() - created_at).days`: floor division of the difference
in seconds by 86400 (Python `timedelta.days` floors). -/
def ageDaysOf (now created : ℤ) : ℤ :=
  Int.fdiv (now - created) 86400

/-- The base score together with the recency factor:
`score = 0.5`, then `score *= 0.5 + 0.5 * 0.5 ** (age_days / 7)` when a
parseable `created_at` is present. -/
noncomputable def recencyPart (now : ℤ) (created : Option ℤ) : ℝ :=
  match created with
  | none => 0.5
  | some c => 0.5 * (0.5 + 0.5 * ((1 / 2 : ℝ) ^ ((ageDaysOf now c : ℝ) / 7)))

/-- `if domain and learning.get('domain') == domain: score *= 1.5`
(`domain` must be truthy, i.e. present and non-empty). -/
def domBoost : Option String → Option String → ℝ → ℝ
  | none, _idom, s => s
  | some d, idom, s => if d = "" then s else if idom = some d then s * 1.5 else s

/-- `×1.4` when `times_validated > 10`, else `×1.2` when `> 5`. -/
def valBoost (tv : ℤ) (s : ℝ) : ℝ :=
  if tv > 10 then s * 1.4 else if tv > 5 then s * 1.2 else s

/-- `QuerySystem._calculate_relevance_score` (the final `min(score, 1.0)`
clamp included). -/
noncomputable def relevanceScore (now : ℤ) (item : KnowledgeItem)
    (domain : Option String) : ℝ :=
  min (valBoost item.timesValidated
        (domBoost domain item.domain (recencyPart now item.createdAt))) 1

/-! ### Connection pool (`_get_connection`)

Handles are identified by creation order (`nextId` counts how many were ever
created).  `alive` is the environment's answer to the `SELECT 1` liveness
probe of `_validate_connection`.  `closed` records every handle that was
`close()`d. -/

/-- `MAX_CONNECTION_POOL_SIZE` from `query.py`. -/
def MAX_CONNECTION_POOL_SIZE : ℕ := 5

/-- State of the connection manager: the pool list (`append`/`pop` at the
right end, as for a Python list), the fresh-handle counter, and the set of
closed handles. -/
structure PoolState where
  pool : List ℕ
  nextId : ℕ
  closed : List ℕ
deriving Repr, DecidableEq

/-- The acquire half of `_get_connection`: pop a pooled handle if any and
probe it (`_validate_connection`); a dead handle is closed and replaced by a
fresh one; an empty pool yields a fresh handle. -/
def acquire (alive : ℕ → Bool) (s : PoolState) : ℕ × PoolState :=
  match s.pool.getLast? with
  | some c =>
    let rest := s.pool.dropLast
    if alive c then (c, { s with pool := rest })
    else (s.nextId, { pool := rest, nextId := s.nextId + 1, closed := s.closed ++ [c] })
  | none => (s.nextId, { s with nextId := s.nextId + 1 })

/-- The release half on a successful body: return to the pool when under the
cap, else close the excess handle. -/
def releaseOk (c : ℕ) (s : PoolState) : PoolState :=
  if s.pool.length < MAX_CONNECTION_POOL_SIZE
  then { s with pool := s.pool ++ [c] }
  else { s with closed := s.closed ++ [c] }

/-- The release half when the body raised: `rollback()` then `close()`; the
handle is never appended to the pool. -/
def releaseErr (c : ℕ) (s : PoolState) : PoolState :=
  { s with closed := s.closed ++ [c] }

/-- One full acquire/use/release cycle of `_get_connection`; `ok` records
whether the body completed without raising. -/
def useConnection (alive : ℕ → Bool) (ok : Bool) (s : PoolState) : ℕ × PoolState :=
  let p := acquire alive s
  (p.1, if ok then releaseOk p.1 p.2 else releaseErr p.1 p.2)

/-- Reachability invariant of the pool state: pooled handles are distinct,
every pooled or closed handle was actually created, and no pooled handle has
been closed. -/
def GoodState (s : PoolState) : Prop :=
  s.pool.Nodup ∧ (∀ i ∈ s.pool, i < s.nextId) ∧ (∀ i ∈ s.closed, i < s.nextId) ∧
    ∀ i ∈ s.pool, i ∉ s.closed

instance (s : PoolState) : Decidable (GoodState s) := by
  unfold GoodState; infer_instance

/-! ### Database model

One structure per table, restricted to the columns the Engine reads.
Timestamps are integer seconds (SQLite stores UTC datetime strings whose
lexicographic order is chronological order, so an integer order is a
faithful abstraction).  Nullable columns are `Option`s.  REAL columns that
are only compared, never rounded (`confidence`, `usefulness_score`,
similarity thresholds) are rationals. -/

/-- A `learnings` row. -/
structure Learning where
  type : String
  title : String
  summary : Option String
  tags : Option String
  domain : Option String
  createdAt : ℤ
deriving Repr, DecidableEq

/-- A `heuristics` row. -/
structure Heuristic where
  domain : String
  rule : String
  explanation : Option String
  confidence : ℚ
  timesValidated : ℤ
  createdAt : ℤ
deriving Repr, DecidableEq

/-- An `experiments` row. -/
structure Experiment where
  name : String
  hypothesis : Option String
  status : String
  cyclesRun : ℤ
  updatedAt : ℤ
deriving Repr, DecidableEq

/-- A `ceo_reviews` row. -/
structure CeoReview where
  title : String
  context : Option String
  recommendation : Option String
  status : String
  createdAt : ℤ
deriving Repr, DecidableEq

/-- A `decisions` row (the columns `get_decisions` selects). -/
structure Decision where
  title : String
  context : String
  decision : String
  rationale : String
  domain : Option String
  status : String
  createdAt : ℤ
deriving Repr, DecidableEq

/-- An `invariants` row (the columns `get_invariants` selects). -/
structure Invariant where
  statement : String
  rationale : Option String
  domain : Option String
  scope : String
  validationType : Option String
  severity : String
  status : String
  violationCount : ℤ
  createdAt : ℤ
deriving Repr, DecidableEq

/-- An `assumptions` row. -/
structure Assumption where
  assumption : String
  context : Option String
  source : Option String
  confidence : ℚ
  status : String
  domain : Option String
  verifiedCount : ℤ
  challengedCount : ℤ
  createdAt : ℤ
deriving Repr, DecidableEq

/-- A `spike_reports` row. -/
structure Spike where
  title : String
  topic : Option String
  question : Option String
  findings : Option String
  gotchas : Option String
  timeInvestedMinutes : Option ℤ
  domain : Option String
  tags : Option String
  usefulnessScore : Option ℚ
  createdAt : ℤ
deriving Repr, DecidableEq

/-- A `violations` row. -/
structure Violation where
  ruleId : ℤ
  ruleName : String
  violationDate : ℤ
  description : Option String
  acknowledged : Bool
deriving Repr, DecidableEq

/-- A `building_queries` audit row, as inserted by `_log_query`; the field
defaults are the Python keyword defaults of `_log_query`. -/
structure AuditRecord where
  queryType : String
  domain : Option String := none
  tags : Option String := none
  limitRequested : Option ℤ := none
  maxTokensRequested : Option ℤ := none
  resultsReturned : ℤ := 0
  tokensApproximated : Option ℤ := none
  status : String := "success"
  errorMessage : Option String := none
  errorCode : Option String := none
  goldenRulesReturned : ℤ := 0
  heuristicsCount : ℤ := 0
  learningsCount : ℤ := 0
  experimentsCount : ℤ := 0
  ceoReviewsCount : ℤ := 0
  querySummary : Option String := none
deriving Repr, DecidableEq

/-- State of the golden-rules file: `none` when the file does not exist,
`some (.error e)` when opening/reading it raises, `some (.ok content)`
when it is read successfully. -/
abbrev GoldenFile := Option (Except String String)

/-- The embedded store.  `meta_observer` is not part of this repository, so
its guarded import fails and the metrics path is a no-op. -/
structure DB where
  learnings : List Learning
  heuristics : List Heuristic
  experiments : List Experiment
  ceoReviews : List CeoReview
  decisions : List Decision
  invariants : List Invariant
  assumptions : List Assumption
  spikeReports : List Spike
  violations : List Violation
  buildingQueries : List AuditRecord
  goldenFile : GoldenFile

/-- Stable insertion: `a` goes after every element that strictly precedes it
under `lt`, so ties keep their original order. -/
def stableInsert (lt : α → α → Bool) (a : α) : List α → List α
  | [] => [a]
  | b :: bs => if lt b a then b :: stableInsert lt a bs else a :: b :: bs

/-- Stable sort by a strict precedence test, modelling both SQLite `ORDER BY`
(with a deterministic tie order) and Python `list.sort` (which is stable). -/
def stableSort (lt : α → α → Bool) : List α → List α
  | [] => []
  | a :: as => stableInsert lt a (stableSort lt as)

/-- `LIMIT ?` with a validated (hence positive) limit. -/
def limitTake (limit : ℤ) (l : List α) : List α :=
  l.take limit.toNat

/-- Python truthiness of an optional string argument (`if domain:`,
`if tags:`): `None` and the empty value are falsy. -/
def optTruthy : Option String → Option String
  | none => none
  | some "" => none
  | some s => some s

/-- Result dictionary of `query_by_domain`. -/
structure DomainQueryResult where
  domain : String
  heuristics : List Heuristic
  learnings : List Learning
  countHeuristics : ℕ
  countLearnings : ℕ
deriving Repr, DecidableEq

/-- The two SELECTs of `query_by_domain` (post-validation): heuristics for
the domain ordered by confidence then validation count descending, learnings
for the domain ordered newest first, each limited. -/
def queryByDomainRead (db : DB) (domain : String) (limit : ℤ) : DomainQueryResult :=
  let hs := limitTake limit (stableSort
    (fun a b => decide (a.confidence > b.confidence ∨
      (a.confidence = b.confidence ∧ a.timesValidated > b.timesValidated)))
    (db.heuristics.filter (fun h => h.domain = domain)))
  let ls := limitTake limit (stableSort
    (fun a b => decide (a.createdAt > b.createdAt))
    (db.learnings.filter (fun l => l.domain = some domain)))
  ⟨domain, hs, ls, hs.length, ls.length⟩

/-- The SELECT of `query_by_tags` (post-validation): learnings whose `tags`
field matches `tags LIKE ?` (no ESCAPE clause) for at least one of the
escaped tag patterns, newest first, limited.  A NULL `tags` field never
matches. -/
def queryByTagsRead (db : DB) (tags : List String) (limit : ℤ) : List Learning :=
  limitTake limit (stableSort
    (fun a b => decide (a.createdAt > b.createdAt))
    (db.learnings.filter (fun l =>
      match l.tags with
      | none => false
      | some t => tags.any (fun tag => likeMatch (tagLikePattern tag.toList) t.toList))))

/-- The SELECT of `query_recent`: learnings from the trailing `days` window,
optionally filtered by type, newest first, limited. -/
def queryRecentRead (db : DB) (typeFilter : Option String) (limit : ℤ)
    (days : ℤ) (now : ℤ) : List Learning :=
  limitTake limit (stableSort
    (fun a b => decide (a.createdAt > b.createdAt))
    (db.learnings.filter (fun l =>
      (match typeFilter with | none => true | some t => decide (l.type = t)) &&
        decide (l.createdAt ≥ now - days * 86400))))

/-- The SELECT of `get_active_experiments`. -/
def activeExperimentsRead (db : DB) : List Experiment :=
  stableSort (fun a b => decide (a.updatedAt > b.updatedAt))
    (db.experiments.filter (fun e => e.status = "active"))

/-- The SELECT of `get_pending_ceo_reviews` (oldest first). -/
def pendingCeoReviewsRead (db : DB) : List CeoReview :=
  stableSort (fun a b => decide (a.createdAt < b.createdAt))
    (db.ceoReviews.filter (fun r => r.status = "pending"))

/-- The SELECT of `get_decisions` (post-validation): status filter, optional
`(domain = ? OR domain IS NULL)` filter, newest first, limited. -/
def decisionsRead (db : DB) (domain : Option String) (status : String)
    (limit : ℤ) : List Decision :=
  limitTake limit (stableSort (fun a b => decide (a.createdAt > b.createdAt))
    (db.decisions.filter (fun d =>
      decide (d.status = status) &&
        (match domain with
         | none => true
         | some q => decide (d.domain = some q ∨ d.domain = none)))))

/-- The SELECT of `get_invariants` (post-validation): optional status,
domain-or-NULL, scope and severity filters, newest first, limited. -/
def invariantsRead (db : DB) (domain : Option String) (status : Option String)
    (scope : Option String) (severity : Option String) (limit : ℤ) : List Invariant :=
  limitTake limit (stableSort (fun a b => decide (a.createdAt > b.createdAt))
    (db.invariants.filter (fun i =>
      (match status with | none => true | some st => decide (i.status = st)) &&
      (match domain with
       | none => true
       | some q => decide (i.domain = some q ∨ i.domain = none)) &&
      (match scope with | none => true | some sc => decide (i.scope = sc)) &&
      (match severity with | none => true | some sv => decide (i.severity = sv)))))

/-- The SELECT of `get_assumptions` (post-validation): status and minimum
confidence, optional domain-or-NULL, ordered by confidence then recency
descending, limited. -/
def assumptionsRead (db : DB) (domain : Option String) (status : String)
    (minConfidence : ℚ) (limit : ℤ) : List Assumption :=
  limitTake limit (stableSort
    (fun a b => decide (a.confidence > b.confidence ∨
      (a.confidence = b.confidence ∧ a.createdAt > b.createdAt)))
    (db.assumptions.filter (fun a =>
      decide (a.status = status) && decide (a.confidence ≥ minConfidence) &&
        (match domain with
         | none => true
         | some q => decide (a.domain = some q ∨ a.domain = none)))))

/-- The SELECT of `get_challenged_assumptions`: status in
challenged/invalidated, optional domain-or-NULL, ordered by challenged count
then recency descending, limited. -/
def challengedAssumptionsRead (db : DB) (domain : Option String)
    (limit : ℤ) : List Assumption :=
  limitTake limit (stableSort
    (fun a b => decide (a.challengedCount > b.challengedCount ∨
      (a.challengedCount = b.challengedCount ∧ a.createdAt > b.createdAt)))
    (db.assumptions.filter (fun a =>
      decide (a.status = "challenged" ∨ a.status = "invalidated") &&
        (match domain with
         | none => true
         | some q => decide (a.domain = some q ∨ a.domain = none)))))

/-- Descending order on a nullable REAL column: SQLite sorts NULLs last in
`ORDER BY ... DESC`, i.e. NULL compares below every value. -/
def usefulnessGt : Option ℚ → Option ℚ → Bool
  | some a, some b => decide (a > b)
  | some _, none => true
  | none, _ => false

/-- The SELECT of `get_spike_reports` (post-validation): optional
domain-or-NULL, tag-LIKE and search-LIKE filters, ordered by usefulness then
recency descending, limited. -/
def spikeReportsRead (db : DB) (domain : Option String)
    (tags : Option (List String)) (search : Option String) (limit : ℤ) : List Spike :=
  limitTake limit (stableSort
    (fun a b => usefulnessGt a.usefulnessScore b.usefulnessScore ||
      (decide (a.usefulnessScore = b.usefulnessScore) && decide (a.createdAt > b.createdAt)))
    (db.spikeReports.filter (fun s =>
      (match domain with
       | none => true
       | some q => decide (s.domain = some q ∨ s.domain = none)) &&
      (match tags with
       | none => true
       | some ts =>
         match s.tags with
         | none => false
         | some t => ts.any (fun tag => likeMatch (tagLikePattern tag.toList) t.toList)) &&
      (match search with
       | none => true
       | some q =>
         let pat := '%' :: (escapeLike q.toList ++ ['%'])
         likeMatch pat s.title.toList ||
           (match s.topic with | none => false | some x => likeMatch pat x.toList) ||
           (match s.question with | none => false | some x => likeMatch pat x.toList) ||
           (match s.findings with | none => false | some x => likeMatch pat x.toList)))))

/-- The SELECT of `get_violations`: trailing window, optional acknowledged
filter, newest first. -/
def violationsRead (db : DB) (days : ℤ) (acknowledged : Option Bool)
    (now : ℤ) : List Violation :=
  stableSort (fun a b => decide (a.violationDate > b.violationDate))
    (db.violations.filter (fun v =>
      decide (v.violationDate ≥ now - days * 86400) &&
        (match acknowledged with
         | none => true
         | some b => v.acknowledged == b)))

/-- `get_golden_rules`: placeholder when the file is missing, error text when
reading raises, contents otherwise; total by construction. -/
def getGoldenRules (gf : GoldenFile) : String :=
  match gf with
  | none => "# Golden Rules\n\nNo golden rules have been established yet."
  | some (.ok content) => content
  | some (.error e) => "# Error Reading Golden Rules\n\nError: " ++ e

/-! ### Similarity matcher (`find_similar_failures`) -/

/-- `\w` of the tokenizing regex (ASCII view): alphanumerics and underscore. -/
def isWordChar (c : Char) : Bool :=
  if ('a' ≤ c ∧ c ≤ 'z') ∨ ('A' ≤ c ∧ c ≤ 'Z') ∨ ('0' ≤ c ∧ c ≤ '9') ∨ c = '_'
  then true else false

/-- Split a character list into maximal runs of word characters
(`re.split(r'\W+', ...)` restricted to its non-empty results). -/
def wordRuns : List Char → List Char → List (List Char)
  | acc, [] => if acc.isEmpty then [] else [acc.reverse]
  | acc, c :: rest =>
    if isWordChar c then wordRuns (c :: acc) rest
    else if acc.isEmpty then wordRuns [] rest
    else acc.reverse :: wordRuns [] rest

/-- The keyword set used on both sides of the matcher: lowercase words
strictly longer than 3 characters, deduplicated (`set(...)`; a Python set has
no specified order, so a deterministic order is chosen). -/
def keywords (s : String) : List String :=
  ((((wordRuns [] s.toList).map (fun w => w.map Char.toLower)).filter
      (fun w => w.length > 3)).dedup).map String.mk

/-- Python `round(q, 2)` (idealised: ties go up rather than to even). -/
def roundQ2 (q : ℚ) : ℚ :=
  (round (q * 100) : ℤ) / 100

/-- One annotated entry of `find_similar_failures`. -/
structure SimilarFailure where
  failure : Learning
  similarity : ℚ
  matchedKeywords : List String
deriving Repr, DecidableEq

/-- `find_similar_failures`: tokenize the task, fetch recent failures
(`query_recent(type_filter='failure', limit=50, days=30)`), compute the
Jaccard ratio of the keyword sets, keep entries at or above the threshold
with the rounded ratio and up to five matched keywords, sort by stored
similarity descending, truncate. -/
def findSimilarFailures (db : DB) (now : ℤ) (task : String)
    (threshold : ℚ) (limit : ℤ) : List SimilarFailure :=
  let taskWords := keywords task
  if taskWords.isEmpty then []
  else
    let failures := queryRecentRead db (some "failure") 50 30 now
    let similar := failures.filterMap (fun f =>
      let failureWords := keywords (f.title ++ " " ++ f.summary.getD "")
      if failureWords.isEmpty then none
      else
        let inter := taskWords.filter (fun w => failureWords.contains w)
        let unionLen :=
          (taskWords ++ failureWords.filter (fun w => !taskWords.contains w)).length
        let similarity : ℚ :=
          if unionLen > 0 then (inter.length : ℚ) / (unionLen : ℚ) else 0
        if similarity ≥ threshold then some ⟨f, roundQ2 similarity, inter.take 5⟩
        else none)
    limitTake limit
      (stableSort (fun a b => decide (a.similarity > b.similarity)) similar)

/-! ### Entry renderers of `build_context`

Python renders `None` fields as the string `None` inside f-strings; numeric
format specifiers are modelled exactly on rationals (up to the float-rounding
idealisation); integer timestamps print via their integer representation. -/

/-- `str(x)` for an optional string under an f-string: `None` renders as
the four characters `None`. -/
def pyStr (o : Option String) : String :=
  o.getD "None"

/-- Python truthiness of an optional string field (`if x:`). -/
def optStrTruthy : Option String → Bool
  | none => false
  | some s => !(s = "")

/-- `s[:n] + '...' if len(s) > n else s`. -/
def truncateAt (n : ℕ) (s : String) : String :=
  if s.length > n then s.take n ++ "..." else s

/-- Two-digit zero-padded numeral. -/
def pad2 (k : ℕ) : String :=
  if k < 10 then "0" ++ toString k else toString k

/-- Python `f"{q:.2f}"` on a rational (ties idealised upward). -/
def fmtQ2 (q : ℚ) : String :=
  let n : ℤ := round (q * 100)
  let m := n.natAbs
  (if n < 0 then "-" else "") ++ toString (m / 100) ++ "." ++ pad2 (m % 100)

/-- Python `f"{q:.1f}"` on a rational. -/
def fmtQ1 (q : ℚ) : String :=
  let n : ℤ := round (q * 10)
  let m := n.natAbs
  (if n < 0 then "-" else "") ++ toString (m / 10) ++ "." ++ toString (m % 10)

/-- Python `f"{q:.0f}"` on a rational. -/
def fmtQ0 (q : ℚ) : String :=
  toString (round q : ℤ)

/-- Python `f"{q:.0%}"` on a rational. -/
def fmtPercent0 (q : ℚ) : String :=
  fmtQ0 (q * 100) ++ "%"

/-- The warning block for one similar failure (several appended parts). -/
def renderSimilarFailure (sf : SimilarFailure) : List String :=
  ["- **[" ++ fmtQ0 (sf.similarity * 100) ++ "% match] " ++ sf.failure.title ++ "**\n"]
  ++ (if sf.matchedKeywords.isEmpty then []
      else ["  Keywords: " ++ String.intercalate ", " sf.matchedKeywords ++ "\n"])
  ++ (if optStrTruthy sf.failure.summary then
        ["  Lesson: " ++ truncateAt 100 (pyStr sf.failure.summary) ++ "\n"]
      else [])
  ++ ["\n"]

/-- One heuristic entry of the domain tier. -/
def renderHeuristicEntry (h : Heuristic) : String :=
  "- **" ++ h.rule ++ "** (confidence: " ++ fmtQ2 h.confidence ++
    ", validated: " ++ toString h.timesValidated ++ "x)\n" ++
    "  " ++ pyStr h.explanation ++ "\n\n"

/-- One learning entry of the domain tier. -/
def renderLearningEntry (l : Learning) : String :=
  "- **" ++ l.title ++ "** (" ++ l.type ++ ")\n" ++
    (if optStrTruthy l.summary then "  " ++ pyStr l.summary ++ "\n" else "") ++
    "  Tags: " ++ pyStr l.tags ++ "\n\n"

/-- One learning entry of the tag-match tier. -/
def renderTagEntry (l : Learning) : String :=
  "- **" ++ l.title ++ "** (" ++ l.type ++ ", domain: " ++ pyStr l.domain ++ ")\n" ++
    (if optStrTruthy l.summary then "  " ++ pyStr l.summary ++ "\n" else "") ++
    "  Tags: " ++ pyStr l.tags ++ "\n\n"

/-- One decision (ADR) entry. -/
def renderDecisionEntry (d : Decision) : String :=
  "- **" ++ d.title ++ "**" ++
    (match optTruthy d.domain with
     | some q => " (domain: " ++ q ++ ")"
     | none => "") ++ "\n" ++
    (if d.decision ≠ "" then "  Decision: " ++ truncateAt 150 d.decision ++ "\n" else "") ++
    (if d.rationale ≠ "" then "  Rationale: " ++ truncateAt 150 d.rationale ++ "\n" else "") ++
    "\n"

/-- One violated-invariant entry. -/
def renderViolatedInvariant (i : Invariant) : String :=
  "- **[VIOLATED " ++ toString i.violationCount ++ "x] " ++
    truncateAt 100 i.statement ++ "**\n" ++
    "  Severity: " ++ i.severity ++ " | Scope: " ++ i.scope ++ "\n" ++
    (if optStrTruthy i.rationale then
       "  Rationale: " ++ truncateAt 100 (pyStr i.rationale) ++ "\n"
     else "") ++
    "\n"

/-- One active-invariant entry. -/
def renderActiveInvariant (i : Invariant) : String :=
  "- **" ++ truncateAt 100 i.statement ++ "**" ++
    (match optTruthy i.domain with
     | some q => " (domain: " ++ q ++ ")"
     | none => "") ++
    "\n  Severity: " ++ i.severity ++ " | Scope: " ++ i.scope ++
    (if optStrTruthy i.validationType then
       " | Validation: " ++ pyStr i.validationType
     else "") ++
    "\n\n"

/-- One high-confidence assumption entry. -/
def renderAssumptionEntry (a : Assumption) : String :=
  "- **" ++ truncateAt 100 a.assumption ++ "**" ++
    " (confidence: " ++ fmtPercent0 a.confidence ++
    (if a.verifiedCount > 0 then ", verified: " ++ toString a.verifiedCount ++ "x" else "") ++
    ")\n" ++
    (if optStrTruthy a.context then
       "  Context: " ++ truncateAt 100 (pyStr a.context) ++ "\n"
     else "") ++
    (if optStrTruthy a.source then "  Source: " ++ pyStr a.source ++ "\n" else "") ++
    "\n"

/-- One challenged/invalidated assumption entry. -/
def renderChallengedEntry (a : Assumption) : String :=
  "- **[" ++ (if a.status = "invalidated" then "INVALIDATED" else "CHALLENGED") ++ "] " ++
    truncateAt 80 a.assumption ++ "**\n" ++
    "  Challenged " ++ toString a.challengedCount ++ "x" ++
    (if a.verifiedCount > 0 then ", verified " ++ toString a.verifiedCount ++ "x" else "") ++
    " | Confidence: " ++ fmtPercent0 a.confidence ++ "\n" ++
    (if optStrTruthy a.context then
       "  Original context: " ++ truncateAt 80 (pyStr a.context) ++ "\n"
     else "") ++
    "\n"

/-- One spike-report entry. -/
def renderSpikeEntry (s : Spike) : String :=
  "- **" ++ s.title ++ "**" ++
    (match s.timeInvestedMinutes with
     | some t => if t = 0 then "" else " (" ++ toString t ++ " min invested)"
     | none => "") ++ "\n" ++
    (if optStrTruthy s.topic then
       "  Topic: " ++ truncateAt 100 (pyStr s.topic) ++ "\n"
     else "") ++
    (if optStrTruthy s.findings then
       "  Findings: " ++ truncateAt 200 (pyStr s.findings) ++ "\n"
     else "") ++
    (if optStrTruthy s.gotchas then
       "  Gotchas: " ++ truncateAt 100 (pyStr s.gotchas) ++ "\n"
     else "") ++
    (match s.usefulnessScore with
     | some u => if u ≠ 0 ∧ u > 0 then "  Usefulness: " ++ fmtQ1 u ++ "/5\n" else ""
     | none => "") ++
    "\n"

/-- One Tier-3 recent-context entry (note: no trailing blank line when the
summary is falsy, exactly as in the source). -/
def renderTier3Entry (l : Learning) : String :=
  "- **" ++ l.title ++ "** (" ++ l.type ++ ", " ++ toString l.createdAt ++ ")\n" ++
    (if optStrTruthy l.summary then "  " ++ pyStr l.summary ++ "\n\n" else "")

/-- One active-experiment entry. -/
def renderExperimentEntry (e : Experiment) : String :=
  "- **" ++ e.name ++ "** (" ++ toString e.cyclesRun ++ " cycles)\n" ++
    (if optStrTruthy e.hypothesis then
       "  Hypothesis: " ++ pyStr e.hypothesis ++ "\n\n"
     else "")

/-- One pending-CEO-review entry. -/
def renderCeoEntry (r : CeoReview) : String :=
  "- **" ++ r.title ++ "**\n" ++
    (if optStrTruthy r.context then "  Context: " ++ pyStr r.context ++ "\n" else "") ++
    (if optStrTruthy r.recommendation then
       "  Recommendation: " ++ pyStr r.recommendation ++ "\n\n"
     else "")

/-! ### Context assembly (`build_context`)

`context_parts` is modelled as a list of strings; each tier is a function
returning its parts together with its contribution to `approx_tokens`
(only entry strings are counted, `len(entry) // 4` each — headers and the
similarity warnings are appended without being counted, exactly as in the
source).  Sorting by relevance score uses real-valued keys, hence classical
decidability. -/

/-- Sum of `len(entry) // 4` over the rendered entries of a tier. -/
def entryTokens (entries : List String) : ℕ :=
  (entries.map (fun e => e.length / 4)).sum

/-- Python `list.sort(key=..., reverse=True)`: stable descending sort. -/
noncomputable def sortByRelevance (key : α → ℝ) (l : List α) : List α :=
  stableSort (fun a b => @decide (key a > key b) (Classical.propDecidable _)) l

/-- The scorer argument built from a heuristic row. -/
def heuristicItem (h : Heuristic) : KnowledgeItem :=
  ⟨some h.createdAt, some h.domain, h.timesValidated⟩

/-- The scorer argument built from a learning row (`times_validated`
defaults to 0: learnings have no such column). -/
def learningItem (l : Learning) : KnowledgeItem :=
  ⟨some l.createdAt, l.domain, 0⟩

/-- Tier 1: the golden-rules header and document, always emitted. -/
def tier1Section (gf : GoldenFile) : List String :=
  ["# TIER 1: \x1b[93mGolden Rules\x1b[0m\n", getGoldenRules gf, "\n"]

/-- The similar-failure warning block (top three, not budget-counted). -/
def warnSection (db : DB) (now : ℤ) (task : String) : List String :=
  let sims := findSimilarFailures db now task (3 / 10) 5
  if sims.isEmpty then []
  else "\n## ⚠️ Similar Failures Detected\n\n" :: (sims.take 3).flatMap renderSimilarFailure

/-- The `## Domain:` part of Tier 2: heuristics and learnings of the domain,
re-ranked by relevance, each entry budget-counted. -/
noncomputable def domainSection (db : DB) (now : ℤ) (d : String) : List String × ℕ :=
  let dd := queryByDomainRead db d 5
  let hPart :=
    if dd.heuristics.isEmpty then ([], 0)
    else
      let entries := (sortByRelevance
        (fun h => relevanceScore now (heuristicItem h) (some d)) dd.heuristics).map
        renderHeuristicEntry
      ("### Heuristics:\n" :: entries, entryTokens entries)
  let lPart :=
    if dd.learnings.isEmpty then ([], 0)
    else
      let entries := (sortByRelevance
        (fun l => relevanceScore now (learningItem l) (some d)) dd.learnings).map
        renderLearningEntry
      ("### Recent Learnings:\n" :: entries, entryTokens entries)
  (("## Domain: " ++ d ++ "\n\n") :: (hPart.1 ++ lPart.1), hPart.2 + lPart.2)

/-- The `## Tag Matches:` part of Tier 2 (the header is emitted even when no
row matches, as in the source). -/
noncomputable def tagSection (db : DB) (now : ℤ) (domainArg : Option String)
    (tags : List String) : List String × ℕ :=
  let results := queryByTagsRead db tags 5
  let entries := (sortByRelevance
    (fun l => relevanceScore now (learningItem l) domainArg) results).map renderTagEntry
  (("## Tag Matches: " ++ String.intercalate ", " tags ++ "\n\n") :: entries,
    entryTokens entries)

/-- The decisions (ADRs) part of Tier 2. -/
def decisionsSection (db : DB) (domainArg : Option String) : List String × ℕ :=
  let ds := decisionsRead db domainArg "accepted" 5
  if ds.isEmpty then ([], 0)
  else
    let entries := ds.map renderDecisionEntry
    ("\n## Decisions (ADRs)\n\n" :: entries, entryTokens entries)

/-- The invariants part of Tier 2: violated ones flagged first, then the
active ones. -/
def invariantsSection (db : DB) (domainArg : Option String) : List String × ℕ :=
  let act := invariantsRead db domainArg (some "active") none none 5
  let viol := invariantsRead db domainArg (some "violated") none none 3
  let vPart :=
    if viol.isEmpty then ([], 0)
    else
      let entries := viol.map renderViolatedInvariant
      ("\n## VIOLATED INVARIANTS\n\n" :: entries, entryTokens entries)
  let aPart :=
    if act.isEmpty then ([], 0)
    else
      let entries := act.map renderActiveInvariant
      ("\n## Active Invariants\n\n" :: entries, entryTokens entries)
  (vPart.1 ++ aPart.1, vPart.2 + aPart.2)

/-- The high-confidence active assumptions part of Tier 2. -/
def assumptionsSection (db : DB) (domainArg : Option String) : List String × ℕ :=
  let xs := assumptionsRead db domainArg "active" (6 / 10) 5
  if xs.isEmpty then ([], 0)
  else
    let entries := xs.map renderAssumptionEntry
    ("\n## Active Assumptions (High Confidence)\n\n" :: entries, entryTokens entries)

/-- The challenged/invalidated assumptions warnings of Tier 2. -/
def challengedSection (db : DB) (domainArg : Option String) : List String × ℕ :=
  let xs := challengedAssumptionsRead db domainArg 3
  if xs.isEmpty then ([], 0)
  else
    let entries := xs.map renderChallengedEntry
    ("\n## Challenged/Invalidated Assumptions\n\n" :: entries, entryTokens entries)

/-- The spike-reports part of Tier 2. -/
def spikesSection (db : DB) (domainArg : Option String) : List String × ℕ :=
  let xs := spikeReportsRead db domainArg none none 5
  if xs.isEmpty then ([], 0)
  else
    let entries := xs.map renderSpikeEntry
    ("\n## Spike Reports (Research Knowledge)\n\n" :: entries, entryTokens entries)

/-- The warning block and the whole of Tier 2 (everything between Tier 1 and
the Tier-3 gate), with its contribution to `approx_tokens`. -/
noncomputable def tier2Block (db : DB) (now : ℤ) (task : String)
    (domainArg : Option String) (tagsArg : Option (List String)) : List String × ℕ :=
  let domPart :=
    match domainArg with
    | none => ([], 0)
    | some d => domainSection db now d
  let tagPart :=
    match tagsArg with
    | none => ([], 0)
    | some ts => tagSection db now domainArg ts
  let dec := decisionsSection db domainArg
  let inv := invariantsSection db domainArg
  let asm := assumptionsSection db domainArg
  let chal := challengedSection db domainArg
  let spk := spikesSection db domainArg
  (warnSection db now task ++
     ["# TIER 2: Relevant Knowledge\n\n"] ++ domPart.1 ++ tagPart.1 ++
     dec.1 ++ inv.1 ++ asm.1 ++ chal.1 ++ spk.1,
   domPart.2 + tagPart.2 + dec.2 + inv.2 + asm.2 + chal.2 + spk.2)

/-- Everything `build_context` emits before the Tier-3 budget gate, with the
running `approx_tokens` estimate (the golden-rules document is the only
Tier-1 text that is counted). -/
noncomputable def preTier3 (db : DB) (now : ℤ) (task : String)
    (domainArg : Option String) (tagsArg : Option (List String)) : List String × ℕ :=
  (tier1Section db.goldenFile ++ (tier2Block db now task domainArg tagsArg).1,
   (getGoldenRules db.goldenFile).length / 4 + (tier2Block db now task domainArg tagsArg).2)

/-- The Tier-3 entry loop: append entries, counting each, and break once the
running estimate reaches the budget. -/
def tier3Loop (maxTokens : ℤ) : List Learning → ℕ → List String × ℕ
  | [], approx => ([], approx)
  | l :: rest, approx =>
    let entry := renderTier3Entry l
    let approx2 := approx + entry.length / 4
    if (approx2 : ℤ) ≥ maxTokens then ([entry], approx2)
    else
      let p := tier3Loop maxTokens rest approx2
      (entry :: p.1, p.2)

/-- Tier 3, gated on `remaining_tokens > 500`: the most recent learnings
(`query_recent(limit=3)`, 2-day window) as filler. -/
def tier3Section (db : DB) (now maxTokens : ℤ) (approx : ℕ) : List String × ℕ :=
  if maxTokens - (approx : ℤ) > 500 then
    let recent := queryRecentRead db none 3 2 now
    let p := tier3Loop maxTokens recent approx
    ("# TIER 3: Recent Context\n\n" :: p.1, p.2)
  else ([], approx)

/-- The active-experiments block, appended regardless of remaining budget. -/
def expSection (db : DB) : List String :=
  let es := activeExperimentsRead db
  if es.isEmpty then []
  else "\n# Active Experiments\n\n" :: es.map renderExperimentEntry

/-- The pending-CEO-reviews block, appended regardless of remaining budget. -/
def ceoSection (db : DB) : List String :=
  let rs := pendingCeoReviewsRead db
  if rs.isEmpty then []
  else "\n# Pending CEO Reviews\n\n" :: rs.map renderCeoEntry

/-- The banner inserted at position 0 at the end of assembly. -/
def buildingHeader : String :=
  "🏢 \x1b[94mBuilding Status\x1b[0m\n━━━━━━━━━━━━━━━━━━\n\n"

/-- The task-context block (`context_parts.insert(0, ...)`). -/
def taskHeaderPart (task : String) : String :=
  buildingHeader ++ "# Task Context\n\n" ++ task ++ "\n\n---\n\n"

/-- The assembled context string for validated inputs: banner and task
block, then Tier 1, warnings, Tier 2, the gated Tier 3, and the always
appended experiments and CEO reviews.  `max_tokens` is clamped above at
`MAX_TOKENS = 50000` first. -/
noncomputable def buildContextStr (db : DB) (now : ℤ) (task : String)
    (domainArg : Option String) (tagsArg : Option (List String))
    (maxTokens : ℤ) : String :=
  let m := if maxTokens > 50000 then 50000 else maxTokens
  let pre := preTier3 db now task domainArg tagsArg
  let t3 := tier3Section db now m pre.2
  String.join (taskHeaderPart task :: (pre.1 ++ t3.1 ++ expSection db ++ ceoSection db))

/-- Python truthiness of the optional tag-list argument (`if tags:`). -/
def optListTruthy : Option (List String) → Option (List String)
  | none => none
  | some [] => none
  | some l => some l

/-- `build_context` with its input validation (task, then truthy domain,
then truthy tags); validation failures raise before any store read. -/
noncomputable def buildContext (db : DB) (now : ℤ) (task : String)
    (domainArg : Option String) (tagsArg : Option (List String))
    (maxTokens : ℤ) : Except QSErr String :=
  match validateQuery task with
  | .error e => .error e
  | .ok task2 =>
    match
      (match optTruthy domainArg with
       | none => .ok none
       | some d => (validateDomain d).map some : Except QSErr (Option String)) with
    | .error e => .error e
    | .ok dom2 =>
      match
        (match optListTruthy tagsArg with
         | none => .ok none
         | some ts => (validateTags ts).map some : Except QSErr (Option (List String))) with
      | .error e => .error e
      | .ok tags2 => .ok (buildContextStr db now task2 dom2 tags2 maxTokens)

/-! ### Public calls with telemetry

`_log_query` opens its own connection, inserts one `building_queries` row and
commits, all inside a catch-all that drops every error: a failing telemetry
write (`telemetryOk = false`) leaves the store unchanged and never raises.
Wall-clock fields (`duration_ms`, `completed_at`) and the dynamic parts of
`query_summary` strings are elided from the audit model. -/

/-- The message of an error (its `str(e)`). -/
def QSErr.msg : QSErr → String
  | .validation m => m
  | .database m => m
  | .timeout m => m
  | .configuration m => m

/-- The integer value of a limit argument, for the audit row. -/
def LimitArg.toOption : LimitArg → Option ℤ
  | .int n => some n
  | .nonInt => none

/-- `_log_query`: append one audit row when the write succeeds, absorb the
failure (no write, no raise) otherwise. -/
def appendAudit (db : DB) (telemetryOk : Bool) (rec : AuditRecord) : DB :=
  if telemetryOk then { db with buildingQueries := db.buildingQueries ++ [rec] } else db

/-- `query_by_domain` with validation and its finally-block telemetry. -/
def runQueryByDomain (db : DB) (domain : String) (limit : LimitArg)
    (telemetryOk : Bool) : Except QSErr DomainQueryResult × DB :=
  match validateDomain domain with
  | .error e =>
    (.error e, appendAudit db telemetryOk
      { queryType := "query_by_domain", domain := some domain,
        limitRequested := limit.toOption, status := "error",
        errorMessage := some e.msg, errorCode := some e.code,
        querySummary := some "Domain query" })
  | .ok d =>
    match validateLimit limit with
    | .error e =>
      (.error e, appendAudit db telemetryOk
        { queryType := "query_by_domain", domain := some d,
          limitRequested := limit.toOption, status := "error",
          errorMessage := some e.msg, errorCode := some e.code,
          querySummary := some "Domain query" })
    | .ok n =>
      let r := queryByDomainRead db d n
      (.ok r, appendAudit db telemetryOk
        { queryType := "query_by_domain", domain := some d, limitRequested := some n,
          resultsReturned := (r.countHeuristics : ℤ) + (r.countLearnings : ℤ),
          heuristicsCount := (r.countHeuristics : ℤ),
          learningsCount := (r.countLearnings : ℤ),
          querySummary := some "Domain query" })

/-- `query_by_tags` with validation and telemetry. -/
def runQueryByTags (db : DB) (tags : List String) (limit : LimitArg)
    (telemetryOk : Bool) : Except QSErr (List Learning) × DB :=
  match validateTags tags with
  | .error e =>
    (.error e, appendAudit db telemetryOk
      { queryType := "query_by_tags", tags := some (String.intercalate "," tags),
        limitRequested := limit.toOption, status := "error",
        errorMessage := some e.msg, errorCode := some e.code,
        querySummary := some "Tag query" })
  | .ok ts =>
    match validateLimit limit with
    | .error e =>
      (.error e, appendAudit db telemetryOk
        { queryType := "query_by_tags", tags := some (String.intercalate "," ts),
          limitRequested := limit.toOption, status := "error",
          errorMessage := some e.msg, errorCode := some e.code,
          querySummary := some "Tag query" })
    | .ok n =>
      let r := queryByTagsRead db ts n
      (.ok r, appendAudit db telemetryOk
        { queryType := "query_by_tags", tags := some (String.intercalate "," ts),
          limitRequested := some n, resultsReturned := (r.length : ℤ),
          learningsCount := (r.length : ℤ), querySummary := some "Tag query" })

/-- `query_recent` with validation and telemetry. -/
def runQueryRecent (db : DB) (now : ℤ) (typeFilter : Option String)
    (limit : LimitArg) (days : ℤ) (telemetryOk : Bool) :
    Except QSErr (List Learning) × DB :=
  match validateLimit limit with
  | .error e =>
    (.error e, appendAudit db telemetryOk
      { queryType := "query_recent", limitRequested := limit.toOption,
        status := "error", errorMessage := some e.msg, errorCode := some e.code,
        querySummary := some "Recent learnings query" })
  | .ok n =>
    match
      (match optTruthy typeFilter with
       | none => .ok none
       | some t => (validateQuery t).map some : Except QSErr (Option String)) with
    | .error e =>
      (.error e, appendAudit db telemetryOk
        { queryType := "query_recent", limitRequested := some n, status := "error",
          errorMessage := some e.msg, errorCode := some e.code,
          querySummary := some "Recent learnings query" })
    | .ok tf =>
      let r := queryRecentRead db (optTruthy (tf.getD "")) n days now
      (.ok r, appendAudit db telemetryOk
        { queryType := "query_recent", limitRequested := some n,
          resultsReturned := (r.length : ℤ), learningsCount := (r.length : ℤ),
          querySummary := some "Recent learnings query" })

/-- `get_active_experiments` with telemetry (no validation). -/
def runActiveExperiments (db : DB) (telemetryOk : Bool) :
    Except QSErr (List Experiment) × DB :=
  let r := activeExperimentsRead db
  (.ok r, appendAudit db telemetryOk
    { queryType := "get_active_experiments", resultsReturned := (r.length : ℤ),
      experimentsCount := (r.length : ℤ),
      querySummary := some "Active experiments query" })

/-- `get_pending_ceo_reviews` with telemetry (no validation). -/
def runPendingCeoReviews (db : DB) (telemetryOk : Bool) :
    Except QSErr (List CeoReview) × DB :=
  let r := pendingCeoReviewsRead db
  (.ok r, appendAudit db telemetryOk
    { queryType := "get_pending_ceo_reviews", resultsReturned := (r.length : ℤ),
      ceoReviewsCount := (r.length : ℤ),
      querySummary := some "Pending CEO reviews query" })

/-- `get_decisions` with validation and telemetry. -/
def runGetDecisions (db : DB) (domain : Option String) (status : String)
    (limit : LimitArg) (telemetryOk : Bool) : Except QSErr (List Decision) × DB :=
  match validateLimit limit with
  | .error e =>
    (.error e, appendAudit db telemetryOk
      { queryType := "get_decisions", domain := domain,
        limitRequested := limit.toOption, status := "error",
        errorMessage := some e.msg, errorCode := some e.code,
        querySummary := some "Decisions query" })
  | .ok n =>
    match
      (match optTruthy domain with
       | none => .ok none
       | some d => (validateDomain d).map some : Except QSErr (Option String)) with
    | .error e =>
      (.error e, appendAudit db telemetryOk
        { queryType := "get_decisions", domain := domain, limitRequested := some n,
          status := "error", errorMessage := some e.msg, errorCode := some e.code,
          querySummary := some "Decisions query" })
    | .ok d2 =>
      let r := decisionsRead db d2 status n
      (.ok r, appendAudit db telemetryOk
        { queryType := "get_decisions", domain := d2, limitRequested := some n,
          resultsReturned := (r.length : ℤ), querySummary := some "Decisions query" })

/-- `get_invariants` with validation and telemetry. -/
def runGetInvariants (db : DB) (domain : Option String) (status : Option String)
    (scope : Option String) (severity : Option String) (limit : LimitArg)
    (telemetryOk : Bool) : Except QSErr (List Invariant) × DB :=
  match validateLimit limit with
  | .error e =>
    (.error e, appendAudit db telemetryOk
      { queryType := "get_invariants", domain := domain,
        limitRequested := limit.toOption, status := "error",
        errorMessage := some e.msg, errorCode := some e.code,
        querySummary := some "Invariants query" })
  | .ok n =>
    match
      (match optTruthy domain with
       | none => .ok none
       | some d => (validateDomain d).map some : Except QSErr (Option String)) with
    | .error e =>
      (.error e, appendAudit db telemetryOk
        { queryType := "get_invariants", domain := domain, limitRequested := some n,
          status := "error", errorMessage := some e.msg, errorCode := some e.code,
          querySummary := some "Invariants query" })
    | .ok d2 =>
      let r := invariantsRead db d2 (optTruthy status) scope severity n
      (.ok r, appendAudit db telemetryOk
        { queryType := "get_invariants", domain := d2, limitRequested := some n,
          resultsReturned := (r.length : ℤ), querySummary := some "Invariants query" })

/-- `get_assumptions` with validation and telemetry. -/
def runGetAssumptions (db : DB) (domain : Option String) (status : String)
    (minConfidence : ℚ) (limit : LimitArg) (telemetryOk : Bool) :
    Except QSErr (List Assumption) × DB :=
  match validateLimit limit with
  | .error e =>
    (.error e, appendAudit db telemetryOk
      { queryType := "get_assumptions", domain := domain,
        limitRequested := limit.toOption, status := "error",
        errorMessage := some e.msg, errorCode := some e.code,
        querySummary := some "Assumptions query" })
  | .ok n =>
    match
      (match optTruthy domain with
       | none => .ok none
       | some d => (validateDomain d).map some : Except QSErr (Option String)) with
    | .error e =>
      (.error e, appendAudit db telemetryOk
        { queryType := "get_assumptions", domain := domain, limitRequested := some n,
          status := "error", errorMessage := some e.msg, errorCode := some e.code,
          querySummary := some "Assumptions query" })
    | .ok d2 =>
      let r := assumptionsRead db d2 status minConfidence n
      (.ok r, appendAudit db telemetryOk
        { queryType := "get_assumptions", domain := d2, limitRequested := some n,
          resultsReturned := (r.length : ℤ), querySummary := some "Assumptions query" })

/-- `get_challenged_assumptions`: no telemetry in the source (plain read). -/
def runChallengedAssumptions (db : DB) (domain : Option String)
    (limit : LimitArg) : Except QSErr (List Assumption) × DB :=
  match validateLimit limit with
  | .error e => (.error e, db)
  | .ok n =>
    match
      (match optTruthy domain with
       | none => .ok none
       | some d => (validateDomain d).map some : Except QSErr (Option String)) with
    | .error e => (.error e, db)
    | .ok d2 => (.ok (challengedAssumptionsRead db d2 n), db)

/-- `get_spike_reports` with validation and telemetry. -/
def runGetSpikeReports (db : DB) (domain : Option String)
    (tags : Option (List String)) (search : Option String) (limit : LimitArg)
    (telemetryOk : Bool) : Except QSErr (List Spike) × DB :=
  match validateLimit limit with
  | .error e =>
    (.error e, appendAudit db telemetryOk
      { queryType := "get_spike_reports", domain := domain,
        limitRequested := limit.toOption, status := "error",
        errorMessage := some e.msg, errorCode := some e.code,
        querySummary := some "Spike reports query" })
  | .ok n =>
    match
      (match optTruthy domain with
       | none => .ok none
       | some d => (validateDomain d).map some : Except QSErr (Option String)) with
    | .error e =>
      (.error e, appendAudit db telemetryOk
        { queryType := "get_spike_reports", domain := domain, limitRequested := some n,
          status := "error", errorMessage := some e.msg, errorCode := some e.code,
          querySummary := some "Spike reports query" })
    | .ok d2 =>
      match
        (match optListTruthy tags with
         | none => .ok none
         | some ts => (validateTags ts).map some : Except QSErr (Option (List String))) with
      | .error e =>
        (.error e, appendAudit db telemetryOk
          { queryType := "get_spike_reports", domain := d2, limitRequested := some n,
            status := "error", errorMessage := some e.msg, errorCode := some e.code,
            querySummary := some "Spike reports query" })
      | .ok ts2 =>
        let r := spikeReportsRead db d2 ts2 (optTruthy search) n
        (.ok r, appendAudit db telemetryOk
          { queryType := "get_spike_reports", domain := d2, limitRequested := some n,
            resultsReturned := (r.length : ℤ),
            querySummary := some "Spike reports query" })

/-- `build_context` with validation and its final telemetry row.  The audit
rows appended by the nested query-method calls are elided from the model;
each of them is one more append to `building_queries` and touches nothing
else.  The post-call `_record_system_metrics` is a no-op because the
`meta_observer` import fails in this repository. -/
noncomputable def runBuildContext (db : DB) (now : ℤ) (task : String)
    (domainArg : Option String) (tagsArg : Option (List String)) (maxTokens : ℤ)
    (telemetryOk : Bool) : Except QSErr String × DB :=
  match buildContext db now task domainArg tagsArg maxTokens with
  | .error e =>
    (.error e, appendAudit db telemetryOk
      { queryType := "build_context", domain := domainArg,
        tags := (optListTruthy tagsArg).map (String.intercalate ","),
        maxTokensRequested := some maxTokens, status := "error",
        errorMessage := some e.msg, errorCode := some e.code,
        querySummary := some "Context build" })
  | .ok s =>
    let m := if maxTokens > 50000 then 50000 else maxTokens
    let heurN := match optTruthy domainArg with
      | none => 0
      | some d => (queryByDomainRead db d 5).countHeuristics
    let domLearnN := match optTruthy domainArg with
      | none => 0
      | some d => (queryByDomainRead db d 5).countLearnings
    let tagN := match optListTruthy tagsArg with
      | none => 0
      | some ts => (queryByTagsRead db ts 5).length
    let decN := (decisionsRead db (optTruthy domainArg) "accepted" 5).length
    let tier3N :=
      if m - ((preTier3 db now task (optTruthy domainArg) (optListTruthy tagsArg)).2 : ℤ) > 500
      then (queryRecentRead db none 3 2 now).length else 0
    let expN := (activeExperimentsRead db).length
    let ceoN := (pendingCeoReviewsRead db).length
    let learnN := domLearnN + tagN + tier3N
    (.ok s, appendAudit db telemetryOk
      { queryType := "build_context", domain := domainArg,
        tags := (optListTruthy tagsArg).map (String.intercalate ","),
        maxTokensRequested := some m,
        resultsReturned := ((heurN + learnN + expN + ceoN + decN : ℕ) : ℤ),
        tokensApproximated := some ((s.length / 4 : ℕ) : ℤ),
        goldenRulesReturned := 1,
        heuristicsCount := (heurN : ℤ), learningsCount := (learnN : ℤ),
        experimentsCount := (expN : ℤ), ceoReviewsCount := (ceoN : ℤ),
        querySummary := some "Context build" })

/-- One public Engine operation (the spec §2 query methods and the
assembler). -/
inductive EngineOp where
  | byDomain (domain : String) (limit : LimitArg)
  | byTags (tags : List String) (limit : LimitArg)
  | recent (typeFilter : Option String) (limit : LimitArg) (days : ℤ)
  | activeExperiments
  | pendingCeoReviews
  | decisionsOp (domain : Option String) (status : String) (limit : LimitArg)
  | invariantsOp (domain : Option String) (status : Option String)
      (scope : Option String) (severity : Option String) (limit : LimitArg)
  | assumptionsOp (domain : Option String) (status : String)
      (minConfidence : ℚ) (limit : LimitArg)
  | challengedOp (domain : Option String) (limit : LimitArg)
  | spikesOp (domain : Option String) (tags : Option (List String))
      (search : Option String) (limit : LimitArg)
  | contextOp (task : String) (domain : Option String)
      (tags : Option (List String)) (maxTokens : ℤ)

/-- The value returned by one Engine operation. -/
inductive OpResult where
  | domainRes (r : DomainQueryResult)
  | learningList (ls : List Learning)
  | experimentList (es : List Experiment)
  | reviewList (rs : List CeoReview)
  | decisionList (ds : List Decision)
  | invariantList (li : List Invariant)
  | assumptionList (xs : List Assumption)
  | spikeList (ss : List Spike)
  | contextText (s : String)

/-- Dispatch one Engine operation, threading the store and the telemetry
outcome. -/
noncomputable def runOp (db : DB) (now : ℤ) (op : EngineOp) (telemetryOk : Bool) :
    Except QSErr OpResult × DB :=
  match op with
  | .byDomain d l =>
    let p := runQueryByDomain db d l telemetryOk
    (p.1.map .domainRes, p.2)
  | .byTags ts l =>
    let p := runQueryByTags db ts l telemetryOk
    (p.1.map .learningList, p.2)
  | .recent tf l days =>
    let p := runQueryRecent db now tf l days telemetryOk
    (p.1.map .learningList, p.2)
  | .activeExperiments =>
    let p := runActiveExperiments db telemetryOk
    (p.1.map .experimentList, p.2)
  | .pendingCeoReviews =>
    let p := runPendingCeoReviews db telemetryOk
    (p.1.map .reviewList, p.2)
  | .decisionsOp d st l =>
    let p := runGetDecisions db d st l telemetryOk
    (p.1.map .decisionList, p.2)
  | .invariantsOp d st sc sv l =>
    let p := runGetInvariants db d st sc sv l telemetryOk
    (p.1.map .invariantList, p.2)
  | .assumptionsOp d st mc l =>
    let p := runGetAssumptions db d st mc l telemetryOk
    (p.1.map .assumptionList, p.2)
  | .challengedOp d l =>
    let p := runChallengedAssumptions db d l
    (p.1.map .assumptionList, p.2)
  | .spikesOp d ts se l =>
    let p := runGetSpikeReports db d ts se l telemetryOk
    (p.1.map .spikeList, p.2)
  | .contextOp task d ts m =>
    let p := runBuildContext db now task d ts m telemetryOk
    (p.1.map .contextText, p.2)

/-! ### Auxiliary predicates and fixtures -/

deriving instance DecidableEq for Except

/-- The call raised a Validation error (stable code QS001). -/
def raisesQS001 {α : Type} (r : Except QSErr α) : Prop :=
  match r with
  | .error e => e.code = "QS001"
  | .ok _ => False

instance {α : Type} (r : Except QSErr α) : Decidable (raisesQS001 r) := by
  unfold raisesQS001; rcases r with e | v <;> infer_instance

/-- The knowledge tables (and the golden-rules file) of `db2` are exactly
those of `db`: nothing was inserted, updated or deleted. -/
def KnowledgePreserved (db db2 : DB) : Prop :=
  db2.learnings = db.learnings ∧ db2.heuristics = db.heuristics ∧
    db2.experiments = db.experiments ∧ db2.ceoReviews = db.ceoReviews ∧
    db2.decisions = db.decisions ∧ db2.invariants = db.invariants ∧
    db2.assumptions = db.assumptions ∧ db2.spikeReports = db.spikeReports ∧
    db2.violations = db.violations ∧ db2.goldenFile = db.goldenFile

/-- A store with no rows and a short golden-rules document (scenario §8.3
of the spec: the budget is far smaller than the document). -/
def emptyDB : DB :=
  { learnings := [], heuristics := [], experiments := [], ceoReviews := [],
    decisions := [], invariants := [], assumptions := [], spikeReports := [],
    violations := [], buildingQueries := [],
    goldenFile := some (.ok "GOLDEN RULES DOC") }

/-- A learning tagged literally with an underscore-bearing tag (scenario §8.2
of the spec transposed to a tag that passes validation). -/
def learningC1 : Learning :=
  { type := "failure", title := "High CPU usage traced", summary := some "CPU saturated",
    tags := some "foo_bar,perf", domain := none, createdAt := 0 }

/-- A store holding only `learningC1`. -/
def dbC1 : DB :=
  { learnings := [learningC1], heuristics := [], experiments := [], ceoReviews := [],
    decisions := [], invariants := [], assumptions := [], spikeReports := [],
    violations := [], buildingQueries := [], goldenFile := none }

/-! ## Theorems -/

/-- C1: in `query_by_tags`, a validated tag containing `_` is backslash
escaped, but the SQL runs `tags LIKE ?` with no ESCAPE clause, so the
backslash is a literal pattern character: the row whose tags field contains
the tag literally does NOT match (only a row with a literal backslash and an
arbitrary character would), contradicting the claimed equivalence with
literal containment.  The code contradicts its own `escape_like` docstring
("escape SQL LIKE wildcards to prevent wildcard injection"), so this is a
code bug, evaluated here at the failing input. -/
theorem C1_escaped_tag_misses_literal_row :
    validateTags ["foo_bar"] = .ok ["foo_bar"]
    ∧ containsSub "foo_bar".toList "foo_bar,perf".toList = true
    ∧ likeMatch (tagLikePattern "foo_bar".toList) "foo_bar,perf".toList = false
    ∧ likeMatch (tagLikePattern "foo_bar".toList) "foo\\Xbar,perf".toList = true
    ∧ queryByTagsRead dbC1 ["foo_bar"] 10 = [] := by
  exact ⟨by decide, by decide, by decide, by decide, by decide⟩

/-! ### C8: input validation -/

/-- Every whitespace character is outside the domain/tag charset. -/
theorem domainTagChar_not_space {c : Char} (h : isDomainTagChar c = true) :
    isPySpace c = false := by
  unfold isPySpace
  split_ifs with hw
  · exfalso
    rcases hw with rfl | rfl | rfl | rfl | rfl | rfl <;> exact absurd h (by decide)
  · rfl

/-- `dropWhile` does nothing when no element satisfies the predicate. -/
theorem dropWhile_eq_self_of_none {p : Char → Bool} {l : List Char}
    (h : ∀ c ∈ l, p c = false) : l.dropWhile p = l := by
  cases l with
  | nil => rfl
  | cons a t => rw [List.dropWhile_cons, h a (by simp)]; simp

/-- `strip()` is the identity on charset-only strings. -/
theorem pyStrip_eq_self {l : List Char} (h : ∀ c ∈ l, isDomainTagChar c = true) :
    pyStrip l = l := by
  have h1 : ∀ c ∈ l, isPySpace c = false := fun c hc => domainTagChar_not_space (h c hc)
  unfold pyStrip
  rw [dropWhile_eq_self_of_none h1,
    dropWhile_eq_self_of_none (fun c hc => h1 c (List.mem_reverse.mp hc)),
    List.reverse_reverse]

/-- `strip()` is the identity on charset-only `String`s. -/
theorem pyStripStr_eq_self {d : String}
    (h : ∀ c ∈ d.toList, isDomainTagChar c = true) : pyStripStr d = d := by
  cases d with
  | mk data =>
    unfold pyStripStr
    rw [pyStrip_eq_self h]
    rfl

/-- A validation error is always reported. -/
theorem raisesQS001_validation {α : Type} (m : String) :
    raisesQS001 (α := α) (.error (.validation m)) := rfl

/-- A non-empty string has a non-empty character list. -/
theorem toList_ne_nil {d : String} (h : d ≠ "") : d.toList ≠ [] := by
  intro hl
  exact h (String.ext hl)

/-- Decomposition of a list by its last element. -/
theorem getLast?_decomp {α : Type} {l : List α} {c : α} (h : l.getLast? = some c) :
    l.dropLast ++ [c] = l := by
  induction l with
  | nil => simp at h
  | cons a t ih =>
    cases t with
    | nil =>
      simp at h
      subst h
      rfl
    | cons b t2 =>
      rw [List.getLast?_cons_cons] at h
      have h2 := ih h
      show a :: ((b :: t2).dropLast ++ [c]) = a :: b :: t2
      rw [h2]

/-- C8 counterexample: the domain `"auth\n"` contains a character outside
the allowed charset, yet `_validate_domain` accepts it (Python `$` matches
just before a trailing newline) and returns it stripped, instead of raising
the claimed Validation error. -/
theorem C8_trailing_newline_accepted :
    validateDomain "auth\n" = .ok "auth"
    ∧ '\n' ∈ "auth\n".toList ∧ isDomainTagChar '\n' = false := by
  exact ⟨by decide, by decide, by decide⟩

/-- `strip()` of an in-charset core followed by one newline drops exactly
the newline. -/
theorem pyStrip_core_newline {l : List Char} (hne : l ≠ [])
    (h : ∀ c ∈ l, isDomainTagChar c = true) : pyStrip (l ++ ['\n']) = l := by
  have h1 : ∀ c ∈ l, isPySpace c = false := fun c hc => domainTagChar_not_space (h c hc)
  unfold pyStrip
  cases l with
  | nil => exact absurd rfl hne
  | cons a t =>
    have ha : isPySpace a = false := h1 a (by simp)
    rw [List.cons_append, List.dropWhile_cons, if_neg (by simp [ha])]
    rw [show (a :: (t ++ ['\n'])).reverse = '\n' :: (a :: t).reverse from by simp]
    rw [List.dropWhile_cons, if_pos (by decide)]
    rw [dropWhile_eq_self_of_none (fun c hc => h1 c (List.mem_reverse.mp hc))]
    exact List.reverse_reverse _

/-- C8 amended: validation raises QS001 exactly on out-of-range inputs,
with the single exception the regex `$` anchor imposes — an out-of-charset
character anywhere before the final position raises, an out-of-charset
final character other than a newline raises, a lone newline raises, yet a
non-empty in-charset core followed by one trailing newline is accepted and
returned with the newline stripped; an empty or over-long domain, and a
non-integer, too-small or too-large limit each raise; in-range inputs are
returned unchanged. -/
theorem C8_amended_validation :
    raisesQS001 (validateDomain "")
    ∧ (∀ d : String, 100 < d.length → raisesQS001 (validateDomain d))
    ∧ (∀ d : String, (∃ c ∈ d.toList.dropLast, isDomainTagChar c = false) →
        raisesQS001 (validateDomain d))
    ∧ (∀ (d : String) (c : Char), d.toList.getLast? = some c →
        isDomainTagChar c = false → c ≠ '\n' → raisesQS001 (validateDomain d))
    ∧ raisesQS001 (validateDomain "\n")
    ∧ (∀ core : String, core ≠ "" → core.length ≤ 99 →
        (∀ c ∈ core.toList, isDomainTagChar c = true) →
        validateDomain (core ++ "\n") = .ok core)
    ∧ (∀ d : String, d ≠ "" → d.length ≤ 100 →
        (∀ c ∈ d.toList, isDomainTagChar c = true) → validateDomain d = .ok d)
    ∧ raisesQS001 (validateLimit .nonInt)
    ∧ (∀ n : ℤ, n < 1 → raisesQS001 (validateLimit (.int n)))
    ∧ (∀ n : ℤ, 1000 < n → raisesQS001 (validateLimit (.int n)))
    ∧ (∀ n : ℤ, 1 ≤ n → n ≤ 1000 → validateLimit (.int n) = .ok n) := by
  refine ⟨by decide, ?_, ?_, ?_, by decide, ?_, ?_, by decide, ?_, ?_, ?_⟩
  · intro d hlen
    unfold validateDomain
    split_ifs <;> exact raisesQS001_validation _
  · intro d hbad
    unfold validateDomain
    split_ifs with h1 h2 h3
    all_goals try exact raisesQS001_validation _
    exfalso
    have h4 : regexDomainMatch d.toList = true := by
      cases hR : regexDomainMatch d.toList
      · exact absurd (by rw [hR]; rfl) h3
      · rfl
    unfold regexDomainMatch at h4
    rw [Bool.or_eq_true] at h4
    obtain ⟨c, hc, hcf⟩ := hbad
    rcases h4 with h4 | h4
    · rw [Bool.and_eq_true, List.all_eq_true] at h4
      exact absurd (h4.2 c ((List.dropLast_prefix _).subset hc)) (by simp [hcf])
    · rw [Bool.and_eq_true, Bool.and_eq_true, List.all_eq_true] at h4
      exact absurd (h4.2 c hc) (by simp [hcf])
  · intro d c hlast hcf hnl
    unfold validateDomain
    split_ifs with h1 h2 h3
    all_goals try exact raisesQS001_validation _
    exfalso
    have h4 : regexDomainMatch d.toList = true := by
      cases hR : regexDomainMatch d.toList
      · exact absurd (by rw [hR]; rfl) h3
      · rfl
    unfold regexDomainMatch at h4
    rw [Bool.or_eq_true] at h4
    rcases h4 with h4 | h4
    · rw [Bool.and_eq_true, List.all_eq_true] at h4
      have hcmem : c ∈ d.toList := by
        rw [← getLast?_decomp hlast]
        simp
      exact absurd (h4.2 c hcmem) (by simp [hcf])
    · rw [Bool.and_eq_true, Bool.and_eq_true] at h4
      have hlnl : d.toList.getLast? = some '\n' := by simpa using h4.1.1
      rw [hlast] at hlnl
      exact hnl (by simpa using hlnl)
  · intro core hne hlen hall
    have hd : (core ++ "\n").toList = core.toList ++ ['\n'] := by
      show (core ++ "\n").data = core.data ++ ['\n']
      rw [String.data_append]
    have hne2 : (core ++ "\n") ≠ "" := by
      intro hcon
      rw [hcon] at hd
      simp at hd
    have h1n : ("\n" : String).length = 1 := rfl
    have hlen2 : ¬ (core ++ "\n").length > 100 := by
      rw [String.length_append, h1n]
      omega
    have hreg : regexDomainMatch (core ++ "\n").toList = true := by
      rw [hd]
      unfold regexDomainMatch
      rw [Bool.or_eq_true]
      right
      rw [Bool.and_eq_true, Bool.and_eq_true]
      refine ⟨⟨?_, ?_⟩, ?_⟩
      · rw [List.getLast?_concat]
        decide
      · rw [List.dropLast_concat]
        cases hct : core.toList with
        | nil => exact absurd (String.ext hct) hne
        | cons a t => simp
      · rw [List.dropLast_concat, List.all_eq_true]
        exact hall
    have hstr : pyStripStr (core ++ "\n") = core := by
      unfold pyStripStr
      rw [hd, pyStrip_core_newline (toList_ne_nil hne) hall]
      cases core with
      | mk data => rfl
    unfold validateDomain
    rw [if_neg hne2, if_neg hlen2, if_neg ?_, hstr]
    intro hcon
    rw [hreg] at hcon
    simp at hcon
  · intro d hne hlen hall
    have hreg : regexDomainMatch d.toList = true := by
      unfold regexDomainMatch
      rw [Bool.or_eq_true]
      left
      rw [Bool.and_eq_true, List.all_eq_true]
      refine ⟨?_, hall⟩
      cases hd : d.toList with
      | nil => exact absurd (String.ext hd) hne
      | cons a t => simp
    unfold validateDomain
    rw [if_neg hne, if_neg (by omega : ¬ d.length > 100),
      if_neg ?_, pyStripStr_eq_self hall]
    intro hcon
    rw [hreg] at hcon
    simp at hcon
  · intro n hn
    show raisesQS001 (if n < 1 then _ else _)
    rw [if_pos hn]
    exact raisesQS001_validation _
  · intro n hn
    show raisesQS001 (if n < 1 then _ else _)
    rw [if_neg (by omega : ¬ n < 1), if_pos hn]
    exact raisesQS001_validation _
  · intro n h1 h2
    show (if n < 1 then _ else _) = Except.ok n
    rw [if_neg (by omega : ¬ n < 1), if_neg (by omega : ¬ n > 1000)]

/-- C8 witness: concrete out-of-range and in-range inputs — including a
newline-terminated domain with another bad character, and the accepted
stripped form — instantiating the amended theorem. -/
theorem C8_amended_validation_witness :
    raisesQS001 (validateDomain "a/b")
    ∧ raisesQS001 (validateDomain ("a/b" ++ "\n"))
    ∧ validateDomain ("auth" ++ "\n") = .ok "auth"
    ∧ raisesQS001 (validateLimit (.int 0))
    ∧ raisesQS001 (validateLimit (.int 1001))
    ∧ validateDomain "auth" = .ok "auth"
    ∧ validateLimit (.int 10) = .ok 10 :=
  ⟨C8_amended_validation.2.2.1 "a/b" ⟨'/', by decide, by decide⟩,
   C8_amended_validation.2.2.1 ("a/b" ++ "\n") ⟨'/', by decide, by decide⟩,
   C8_amended_validation.2.2.2.2.2.1 "auth" (by decide) (by decide) (by decide),
   C8_amended_validation.2.2.2.2.2.2.2.2.1 0 (by decide),
   C8_amended_validation.2.2.2.2.2.2.2.2.2.1 1001 (by decide),
   C8_amended_validation.2.2.2.2.2.2.1 "auth" (by decide) (by decide) (by decide),
   C8_amended_validation.2.2.2.2.2.2.2.2.2.2 10 (by decide) (by decide)⟩

/-! ### C6 and C7: connection pool -/

/-- The acquire half preserves the pool invariant and yields a handle that is
neither pooled nor closed and was actually created. -/
theorem acquire_spec (alive : ℕ → Bool) (s : PoolState) (hs : GoodState s) :
    GoodState (acquire alive s).2
    ∧ (acquire alive s).1 ∉ (acquire alive s).2.pool
    ∧ (acquire alive s).1 ∉ (acquire alive s).2.closed
    ∧ (acquire alive s).1 < (acquire alive s).2.nextId := by
  obtain ⟨hnd, hlt, hcl, hdisj⟩ := hs
  rcases hl : s.pool.getLast? with _ | c
  · have e : acquire alive s = (s.nextId, { s with nextId := s.nextId + 1 }) := by
      unfold acquire; rw [hl]
    rw [e]
    refine ⟨⟨hnd, ?_, ?_, hdisj⟩, ?_, ?_, ?_⟩
    · show ∀ i ∈ s.pool, i < s.nextId + 1
      intro i hi; exact lt_trans (hlt i hi) (Nat.lt_succ_self _)
    · show ∀ i ∈ s.closed, i < s.nextId + 1
      intro i hi; exact lt_trans (hcl i hi) (Nat.lt_succ_self _)
    · show s.nextId ∉ s.pool
      intro hmem; exact absurd (hlt _ hmem) (lt_irrefl _)
    · show s.nextId ∉ s.closed
      intro hmem; exact absurd (hcl _ hmem) (lt_irrefl _)
    · show s.nextId < s.nextId + 1
      omega
  · have hdec := getLast?_decomp hl
    have hcmem : c ∈ s.pool := by rw [← hdec]; simp
    have hnd2 : s.pool.dropLast.Nodup ∧ c ∉ s.pool.dropLast := by
      rw [← hdec] at hnd
      rcases List.nodup_append.mp hnd with ⟨h1, _, h3⟩
      exact ⟨h1, fun hc => h3 hc (by simp)⟩
    have hsub : ∀ i ∈ s.pool.dropLast, i ∈ s.pool := by
      intro i hi; rw [← hdec]; exact List.mem_append_left _ hi
    by_cases ha : alive c = true
    · have e : acquire alive s = (c, { s with pool := s.pool.dropLast }) := by
        unfold acquire; rw [hl]; simp [ha]
      rw [e]
      refine ⟨⟨hnd2.1, ?_, hcl, ?_⟩, hnd2.2, hdisj c hcmem, hlt c hcmem⟩
      · intro i hi; exact hlt i (hsub i hi)
      · intro i hi; exact hdisj i (hsub i hi)
    · have e : acquire alive s
          = (s.nextId, ⟨s.pool.dropLast, s.nextId + 1, s.closed ++ [c]⟩) := by
        unfold acquire; rw [hl]; simp [ha]
      rw [e]
      refine ⟨⟨hnd2.1, ?_, ?_, ?_⟩, ?_, ?_, ?_⟩
      · show ∀ i ∈ s.pool.dropLast, i < s.nextId + 1
        intro i hi; exact lt_trans (hlt i (hsub i hi)) (Nat.lt_succ_self _)
      · show ∀ i ∈ s.closed ++ [c], i < s.nextId + 1
        intro i hi
        rcases List.mem_append.mp hi with hi2 | hi2
        · exact lt_trans (hcl i hi2) (Nat.lt_succ_self _)
        · have hic : i = c := by simpa using hi2
          subst hic; exact lt_trans (hlt i hcmem) (Nat.lt_succ_self _)
      · show ∀ i ∈ s.pool.dropLast, i ∉ s.closed ++ [c]
        intro i hi hic
        rcases List.mem_append.mp hic with hi2 | hi2
        · exact hdisj i (hsub i hi) hi2
        · have hic2 : i = c := by simpa using hi2
          subst hic2; exact hnd2.2 hi
      · show s.nextId ∉ s.pool.dropLast
        intro hmem; exact absurd (hlt _ (hsub _ hmem)) (lt_irrefl _)
      · show s.nextId ∉ s.closed ++ [c]
        intro hmem
        rcases List.mem_append.mp hmem with hi2 | hi2
        · exact absurd (hcl _ hi2) (lt_irrefl _)
        · have hic : s.nextId = c := by simpa using hi2
          rw [hic] at hlt
          exact absurd (hlt c hcmem) (by omega)
      · show s.nextId < s.nextId + 1
        omega

/-- An acquire from an empty pool creates a fresh handle. -/
theorem acquire_empty (alive : ℕ → Bool) (t : PoolState) (h : t.pool = []) :
    (acquire alive t).1 = t.nextId := by
  unfold acquire
  rw [h]
  rfl

/-- C6: a handle on which the body errors is closed, never returned to the
pool, the pool invariant is preserved, and an acquire that then finds the
pool empty yields a freshly created handle (never a closed one). -/
theorem C6_poisoned_handle_discarded (alive alive2 : ℕ → Bool) (s : PoolState)
    (hs : GoodState s) :
    (useConnection alive false s).1 ∉ (useConnection alive false s).2.pool
    ∧ (useConnection alive false s).1 ∈ (useConnection alive false s).2.closed
    ∧ GoodState (useConnection alive false s).2
    ∧ ((useConnection alive false s).2.pool = [] →
        (acquire alive2 (useConnection alive false s).2).1
            = (useConnection alive false s).2.nextId
        ∧ (acquire alive2 (useConnection alive false s).2).1
            ∉ (useConnection alive false s).2.closed) := by
  obtain ⟨hgood, hnp, hnc, hfresh⟩ := acquire_spec alive s hs
  obtain ⟨gnd, glt, gcl, gdisj⟩ := hgood
  have hpool : (useConnection alive false s).2.pool = (acquire alive s).2.pool := rfl
  have hclosed : (useConnection alive false s).2.closed
      = (acquire alive s).2.closed ++ [(acquire alive s).1] := rfl
  have hnext : (useConnection alive false s).2.nextId = (acquire alive s).2.nextId := rfl
  have hconn : (useConnection alive false s).1 = (acquire alive s).1 := rfl
  refine ⟨?_, ?_, ⟨?_, ?_, ?_, ?_⟩, ?_⟩
  · rw [hconn, hpool]; exact hnp
  · rw [hconn, hclosed]; simp
  · rw [hpool]; exact gnd
  · rw [hpool, hnext]; exact glt
  · rw [hclosed, hnext]
    intro i hi
    rcases List.mem_append.mp hi with hi2 | hi2
    · exact gcl i hi2
    · have : i = (acquire alive s).1 := by simpa using hi2
      subst this; exact hfresh
  · rw [hpool, hclosed]
    intro i hi hic
    rcases List.mem_append.mp hic with hi2 | hi2
    · exact gdisj i hi hi2
    · have : i = (acquire alive s).1 := by simpa using hi2
      subst this; exact hnp hi
  · intro hempt
    constructor
    · exact acquire_empty alive2 _ hempt
    · rw [acquire_empty alive2 _ hempt, hclosed, hnext]
      intro hmem
      rcases List.mem_append.mp hmem with hi2 | hi2
      · exact absurd (gcl _ hi2) (by omega)
      · have : (acquire alive s).2.nextId = (acquire alive s).1 := by simpa using hi2
        omega

/-- C6 witness: a concrete two-handle pool. -/
theorem C6_poisoned_handle_discarded_witness :
    (useConnection (fun _ => true) false ⟨[0, 1], 2, []⟩).1
        ∉ (useConnection (fun _ => true) false ⟨[0, 1], 2, []⟩).2.pool
    ∧ (useConnection (fun _ => true) false ⟨[0, 1], 2, []⟩).1
        ∈ (useConnection (fun _ => true) false ⟨[0, 1], 2, []⟩).2.closed
    ∧ GoodState (useConnection (fun _ => true) false ⟨[0, 1], 2, []⟩).2
    ∧ ((useConnection (fun _ => true) false ⟨[0, 1], 2, []⟩).2.pool = [] →
        (acquire (fun _ => true) (useConnection (fun _ => true) false ⟨[0, 1], 2, []⟩).2).1
            = (useConnection (fun _ => true) false ⟨[0, 1], 2, []⟩).2.nextId
        ∧ (acquire (fun _ => true) (useConnection (fun _ => true) false ⟨[0, 1], 2, []⟩).2).1
            ∉ (useConnection (fun _ => true) false ⟨[0, 1], 2, []⟩).2.closed) :=
  C6_poisoned_handle_discarded (fun _ => true) (fun _ => true) ⟨[0, 1], 2, []⟩ (by decide)

/-- The pool after an acquire is the original pool minus its last element. -/
theorem acquire_pool_eq (alive : ℕ → Bool) (s : PoolState) :
    (acquire alive s).2.pool = s.pool.dropLast := by
  rcases hl : s.pool.getLast? with _ | c
  · have hp : s.pool = [] := List.getLast?_eq_none_iff.mp hl
    have e : acquire alive s = (s.nextId, { s with nextId := s.nextId + 1 }) := by
      unfold acquire; rw [hl]
    rw [e]
    show s.pool = s.pool.dropLast
    rw [hp]
    rfl
  · by_cases ha : alive c = true
    · have e : acquire alive s = (c, { s with pool := s.pool.dropLast }) := by
        unfold acquire; rw [hl]; simp [ha]
      rw [e]
    · have e : acquire alive s
          = (s.nextId, ⟨s.pool.dropLast, s.nextId + 1, s.closed ++ [c]⟩) := by
        unfold acquire; rw [hl]; simp [ha]
      rw [e]

/-- C7: the pool never exceeds the cap of 5 across a full cycle; an over-cap
release closes instead of pooling; a dead popped handle is discarded and
replaced by a fresh one. -/
theorem C7_pool_bounded (alive : ℕ → Bool) (ok : Bool) (s : PoolState)
    (hcap : s.pool.length ≤ MAX_CONNECTION_POOL_SIZE) :
    (useConnection alive ok s).2.pool.length ≤ MAX_CONNECTION_POOL_SIZE
    ∧ (∀ (c : ℕ) (t : PoolState), ¬ t.pool.length < MAX_CONNECTION_POOL_SIZE →
        (releaseOk c t).pool = t.pool ∧ (releaseOk c t).closed = t.closed ++ [c])
    ∧ (∀ c : ℕ, s.pool.getLast? = some c → alive c = false →
        (acquire alive s).1 = s.nextId ∧ c ∈ (acquire alive s).2.closed) := by
  refine ⟨?_, ?_, ?_⟩
  · have hdrop : (acquire alive s).2.pool.length ≤ MAX_CONNECTION_POOL_SIZE := by
      rw [acquire_pool_eq, List.length_dropLast]
      omega
    cases ok with
    | false => exact hdrop
    | true =>
      show (releaseOk (acquire alive s).1 (acquire alive s).2).pool.length ≤ _
      unfold releaseOk
      split_ifs with hlt
      · simp only [List.length_append, List.length_singleton]
        omega
      · exact hdrop
  · intro c t hge
    unfold releaseOk
    rw [if_neg hge]
    exact ⟨rfl, rfl⟩
  · intro c hl ha
    unfold acquire
    rw [hl]
    simp [ha]

/-- C7 witness: a full pool of five live handles, released under the cap
check. -/
theorem C7_pool_bounded_witness :
    (useConnection (fun _ => false) true ⟨[0, 1, 2, 3, 4], 5, []⟩).2.pool.length
        ≤ MAX_CONNECTION_POOL_SIZE
    ∧ (∀ (c : ℕ) (t : PoolState), ¬ t.pool.length < MAX_CONNECTION_POOL_SIZE →
        (releaseOk c t).pool = t.pool ∧ (releaseOk c t).closed = t.closed ++ [c])
    ∧ (∀ c : ℕ, ([0, 1, 2, 3, 4] : List ℕ).getLast? = some c → (fun _ => false) c = false →
        (acquire (fun _ => false) ⟨[0, 1, 2, 3, 4], 5, []⟩).1 = 5
        ∧ c ∈ (acquire (fun _ => false) ⟨[0, 1, 2, 3, 4], 5, []⟩).2.closed) :=
  C7_pool_bounded (fun _ => false) true ⟨[0, 1, 2, 3, 4], 5, []⟩ (by decide)

/-! ### C3 and C4: relevance scorer -/

/-- The base-times-recency part always exceeds 1/4: the recency factor is a
positive power of 1/2. -/
theorem quarter_lt_recencyPart (now : ℤ) (created : Option ℤ) :
    (0.25 : ℝ) < recencyPart now created := by
  unfold recencyPart
  cases created with
  | none => norm_num
  | some c =>
    have hr : (0 : ℝ) < (1 / 2 : ℝ) ^ (((ageDaysOf now c : ℤ) : ℝ) / 7) :=
      Real.rpow_pos_of_pos (by norm_num) _
    nlinarith [hr]

/-- The domain boost never decreases a nonnegative score. -/
theorem le_domBoost (qd idom : Option String) {s : ℝ} (hs : 0 ≤ s) :
    s ≤ domBoost qd idom s := by
  cases qd with
  | none => exact le_refl s
  | some d =>
    simp only [domBoost]
    split_ifs <;> nlinarith

/-- The domain boost preserves nonnegativity. -/
theorem domBoost_nonneg (qd idom : Option String) {s : ℝ} (hs : 0 ≤ s) :
    0 ≤ domBoost qd idom s :=
  le_trans hs (le_domBoost qd idom hs)

/-- The validation boost never decreases a nonnegative score. -/
theorem le_valBoost (tv : ℤ) {s : ℝ} (hs : 0 ≤ s) : s ≤ valBoost tv s := by
  unfold valBoost
  split_ifs <;> nlinarith

/-- C3: the relevance score always lies in the closed interval [0.25, 1]:
base 0.5, recency multiplier in (0.5, ∞), multiplicative domain and
validation boosts, final clamp at 1. -/
theorem C3_score_bounds (now : ℤ) (item : KnowledgeItem) (domain : Option String) :
    relevanceScore now item domain ∈ Set.Icc (0.25 : ℝ) 1 := by
  rw [Set.mem_Icc]
  have h0 := quarter_lt_recencyPart now item.createdAt
  have h0n : (0 : ℝ) ≤ recencyPart now item.createdAt := by linarith
  have h1 := le_domBoost domain item.domain h0n
  have h1n : (0 : ℝ) ≤ domBoost domain item.domain (recencyPart now item.createdAt) :=
    le_trans h0n h1
  have h2 := le_valBoost item.timesValidated h1n
  unfold relevanceScore
  constructor
  · exact le_min (by linarith) (by norm_num)
  · exact min_le_right _ _

/-- Ages in whole days are antitone in the creation timestamp. -/
theorem ageDaysOf_anti (now : ℤ) {c₁ c₂ : ℤ} (h : c₁ ≤ c₂) :
    ageDaysOf now c₂ ≤ ageDaysOf now c₁ := by
  unfold ageDaysOf
  have h86 : (0 : ℤ) ≤ 86400 := by norm_num
  rw [Int.fdiv_eq_ediv _ h86, Int.fdiv_eq_ediv _ h86]
  exact Int.ediv_le_ediv (by norm_num) (by omega)

/-- The recency part is antitone in the age in days. -/
theorem recencyPart_anti (now : ℤ) {c₁ c₂ : ℤ}
    (h : ageDaysOf now c₂ ≤ ageDaysOf now c₁) :
    recencyPart now (some c₁) ≤ recencyPart now (some c₂) := by
  unfold recencyPart
  have key : (1 / 2 : ℝ) ^ (((ageDaysOf now c₁ : ℤ) : ℝ) / 7)
      ≤ (1 / 2 : ℝ) ^ (((ageDaysOf now c₂ : ℤ) : ℝ) / 7) := by
    apply Real.rpow_le_rpow_of_exponent_ge (by norm_num) (by norm_num)
    have hc : ((ageDaysOf now c₂ : ℤ) : ℝ) ≤ ((ageDaysOf now c₁ : ℤ) : ℝ) := by
      exact_mod_cast h
    linarith
  nlinarith [key]

/-- The recency part is strictly antitone when the ages in whole days
differ. -/
theorem recencyPart_anti_strict (now : ℤ) {c₁ c₂ : ℤ}
    (h : ageDaysOf now c₂ < ageDaysOf now c₁) :
    recencyPart now (some c₁) < recencyPart now (some c₂) := by
  unfold recencyPart
  have key : (1 / 2 : ℝ) ^ (((ageDaysOf now c₁ : ℤ) : ℝ) / 7)
      < (1 / 2 : ℝ) ^ (((ageDaysOf now c₂ : ℤ) : ℝ) / 7) := by
    apply Real.rpow_lt_rpow_of_exponent_gt (by norm_num) (by norm_num)
    have hc : ((ageDaysOf now c₂ : ℤ) : ℝ) < ((ageDaysOf now c₁ : ℤ) : ℝ) := by
      exact_mod_cast h
    linarith
  nlinarith [key]

/-- The domain boost is monotone on nonnegative scores. -/
theorem domBoost_mono (qd idom : Option String) {s t : ℝ} (h : s ≤ t) :
    domBoost qd idom s ≤ domBoost qd idom t := by
  cases qd with
  | none => exact h
  | some d =>
    simp only [domBoost]
    split_ifs <;> nlinarith

/-- The domain boost is strictly monotone. -/
theorem domBoost_strictMono (qd idom : Option String) {s t : ℝ} (h : s < t) :
    domBoost qd idom s < domBoost qd idom t := by
  cases qd with
  | none => exact h
  | some d =>
    simp only [domBoost]
    split_ifs <;> nlinarith

/-- The validation boost is monotone on nonnegative scores. -/
theorem valBoost_mono (tv : ℤ) {s t : ℝ} (h : s ≤ t) :
    valBoost tv s ≤ valBoost tv t := by
  unfold valBoost
  split_ifs <;> nlinarith

/-- The validation boost is strictly monotone. -/
theorem valBoost_strictMono (tv : ℤ) {s t : ℝ} (h : s < t) :
    valBoost tv s < valBoost tv t := by
  unfold valBoost
  split_ifs <;> nlinarith

/-- C4 counterexample: two items identical except for their creation
timestamps, one strictly older by one second; both fall in the same whole
day of age (`timedelta.days`), so their relevance scores are equal and the
strictly older item does NOT score strictly lower. -/
theorem C4_same_day_scores_equal :
    relevanceScore 86399 ⟨some 0, none, 0⟩ none
        = relevanceScore 86399 ⟨some 1, none, 0⟩ none
    ∧ ¬ (relevanceScore 86399 ⟨some 0, none, 0⟩ none
        < relevanceScore 86399 ⟨some 1, none, 0⟩ none) := by
  have h : ageDaysOf 86399 0 = ageDaysOf 86399 1 := by decide
  have heq : relevanceScore 86399 ⟨some 0, none, 0⟩ none
      = relevanceScore 86399 ⟨some 1, none, 0⟩ none := by
    show min (valBoost 0 (domBoost none none
        (0.5 * (0.5 + 0.5 * ((1 / 2 : ℝ) ^ (((ageDaysOf 86399 0 : ℤ) : ℝ) / 7)))))) 1
      = min (valBoost 0 (domBoost none none
        (0.5 * (0.5 + 0.5 * ((1 / 2 : ℝ) ^ (((ageDaysOf 86399 1 : ℤ) : ℝ) / 7)))))) 1
    rw [h]
  exact ⟨heq, by rw [heq]; exact lt_irrefl _⟩

/-- Equal ages in whole days give equal recency parts. -/
theorem recencyPart_congr (now : ℤ) {c₁ c₂ : ℤ}
    (h : ageDaysOf now c₁ = ageDaysOf now c₂) :
    recencyPart now (some c₁) = recencyPart now (some c₂) := by
  show 0.5 * (0.5 + 0.5 * ((1 / 2 : ℝ) ^ (((ageDaysOf now c₁ : ℤ) : ℝ) / 7)))
      = 0.5 * (0.5 + 0.5 * ((1 / 2 : ℝ) ^ (((ageDaysOf now c₂ : ℤ) : ℝ) / 7)))
  rw [h]

/-- Equal ages in whole days give equal relevance scores, all other fields
fixed. -/
theorem relevanceScore_congr_age (now : ℤ) (dom qd : Option String) (tv : ℤ)
    {c₁ c₂ : ℤ} (h : ageDaysOf now c₁ = ageDaysOf now c₂) :
    relevanceScore now ⟨some c₁, dom, tv⟩ qd
      = relevanceScore now ⟨some c₂, dom, tv⟩ qd := by
  show min (valBoost tv (domBoost qd dom (recencyPart now (some c₁)))) 1
      = min (valBoost tv (domBoost qd dom (recencyPart now (some c₂)))) 1
  rw [recencyPart_congr now h]

/-- C4 amended: with all other fields fixed, the strictly older item scores
at most the newer one, and strictly lower exactly when their ages in whole
days differ and the *older* item's score lies below the 1.0 clamp (when the
older item's score also reaches the cap, both scores clamp to 1.0 and are
equal). -/
theorem C4_older_scores_lower (now c₁ c₂ : ℤ) (dom qd : Option String) (tv : ℤ)
    (h : c₁ ≤ c₂) :
    relevanceScore now ⟨some c₁, dom, tv⟩ qd ≤ relevanceScore now ⟨some c₂, dom, tv⟩ qd
    ∧ (relevanceScore now ⟨some c₁, dom, tv⟩ qd
          < relevanceScore now ⟨some c₂, dom, tv⟩ qd
        ↔ ageDaysOf now c₂ < ageDaysOf now c₁
          ∧ relevanceScore now ⟨some c₁, dom, tv⟩ qd < 1) := by
  have hage := ageDaysOf_anti now h
  have hle : relevanceScore now ⟨some c₁, dom, tv⟩ qd
      ≤ relevanceScore now ⟨some c₂, dom, tv⟩ qd := by
    unfold relevanceScore
    exact min_le_min
      (valBoost_mono tv (domBoost_mono qd dom (recencyPart_anti now hage))) le_rfl
  refine ⟨hle, ?_, ?_⟩
  · intro hlt
    constructor
    · by_contra hcon
      push_neg at hcon
      have heq := le_antisymm hcon hage
      rw [relevanceScore_congr_age now dom qd tv heq] at hlt
      exact lt_irrefl _ hlt
    · have h2 : relevanceScore now ⟨some c₂, dom, tv⟩ qd ≤ 1 := by
        unfold relevanceScore
        exact min_le_right _ _
      exact lt_of_lt_of_le hlt h2
  · rintro ⟨hagest, h1⟩
    have hA1 : valBoost tv (domBoost qd dom (recencyPart now (some c₁))) < 1 := by
      by_contra hge
      push_neg at hge
      have hone : relevanceScore now ⟨some c₁, dom, tv⟩ qd = 1 := by
        unfold relevanceScore
        exact min_eq_right hge
      rw [hone] at h1
      exact lt_irrefl _ h1
    have hAB : valBoost tv (domBoost qd dom (recencyPart now (some c₁)))
        < valBoost tv (domBoost qd dom (recencyPart now (some c₂))) :=
      valBoost_strictMono tv (domBoost_strictMono qd dom (recencyPart_anti_strict now hagest))
    show min (valBoost tv (domBoost qd dom (recencyPart now (some c₁)))) 1
        < min (valBoost tv (domBoost qd dom (recencyPart now (some c₂)))) 1
    calc min (valBoost tv (domBoost qd dom (recencyPart now (some c₁)))) 1
        = valBoost tv (domBoost qd dom (recencyPart now (some c₁))) :=
          min_eq_left (le_of_lt hA1)
      _ < min (valBoost tv (domBoost qd dom (recencyPart now (some c₂)))) 1 :=
          lt_min hAB hA1

/-- C4 witness: a seven-day-older item (14 days vs 7 days of age). -/
theorem C4_older_scores_lower_witness :
    relevanceScore 1209600 ⟨some 0, none, 0⟩ none
        ≤ relevanceScore 1209600 ⟨some 604800, none, 0⟩ none
    ∧ (relevanceScore 1209600 ⟨some 0, none, 0⟩ none
          < relevanceScore 1209600 ⟨some 604800, none, 0⟩ none
        ↔ ageDaysOf 1209600 604800 < ageDaysOf 1209600 0
          ∧ relevanceScore 1209600 ⟨some 0, none, 0⟩ none < 1) :=
  C4_older_scores_lower 1209600 0 604800 none none 0 (by norm_num)

/-! ### C5 and C9: telemetry and the read-only frame -/

/-- Preservation is reflexive. -/
theorem knowledgePreserved_refl (db : DB) : KnowledgePreserved db db :=
  ⟨rfl, rfl, rfl, rfl, rfl, rfl, rfl, rfl, rfl, rfl⟩

/-- One `_log_query` attempt only ever appends audit rows, whether or not
the write succeeds. -/
theorem appendAudit_frame (db : DB) (t : Bool) (rec : AuditRecord) :
    KnowledgePreserved db (appendAudit db t rec)
    ∧ ∃ new, (appendAudit db t rec).buildingQueries = db.buildingQueries ++ new := by
  unfold appendAudit
  split_ifs
  · exact ⟨⟨rfl, rfl, rfl, rfl, rfl, rfl, rfl, rfl, rfl, rfl⟩, [rec], rfl⟩
  · exact ⟨knowledgePreserved_refl db, [], (List.append_nil _).symm⟩

/-- The result of `query_by_domain` does not depend on the telemetry
outcome. -/
theorem runQueryByDomain_result (db : DB) (d : String) (l : LimitArg)
    (t₁ t₂ : Bool) : (runQueryByDomain db d l t₁).1 = (runQueryByDomain db d l t₂).1 := by
  unfold runQueryByDomain
  cases validateDomain d
  · rfl
  · cases validateLimit l <;> rfl

/-- `query_by_domain` only appends audit rows. -/
theorem runQueryByDomain_frame (db : DB) (d : String) (l : LimitArg) (t : Bool) :
    KnowledgePreserved db (runQueryByDomain db d l t).2
    ∧ ∃ new, (runQueryByDomain db d l t).2.buildingQueries = db.buildingQueries ++ new := by
  unfold runQueryByDomain
  cases validateDomain d
  · exact appendAudit_frame db t _
  · cases validateLimit l
    · exact appendAudit_frame db t _
    · exact appendAudit_frame db t _

/-- The result of `query_by_tags` does not depend on the telemetry
outcome. -/
theorem runQueryByTags_result (db : DB) (ts : List String) (l : LimitArg)
    (t₁ t₂ : Bool) : (runQueryByTags db ts l t₁).1 = (runQueryByTags db ts l t₂).1 := by
  unfold runQueryByTags
  cases validateTags ts
  · rfl
  · cases validateLimit l <;> rfl

/-- `query_by_tags` only appends audit rows. -/
theorem runQueryByTags_frame (db : DB) (ts : List String) (l : LimitArg) (t : Bool) :
    KnowledgePreserved db (runQueryByTags db ts l t).2
    ∧ ∃ new, (runQueryByTags db ts l t).2.buildingQueries = db.buildingQueries ++ new := by
  unfold runQueryByTags
  cases validateTags ts
  · exact appendAudit_frame db t _
  · cases validateLimit l
    · exact appendAudit_frame db t _
    · exact appendAudit_frame db t _

/-- The result of `query_recent` does not depend on the telemetry outcome. -/
theorem runQueryRecent_result (db : DB) (now : ℤ) (tf : Option String)
    (l : LimitArg) (days : ℤ) (t₁ t₂ : Bool) :
    (runQueryRecent db now tf l days t₁).1 = (runQueryRecent db now tf l days t₂).1 := by
  unfold runQueryRecent
  cases validateLimit l
  · rfl
  · cases (match optTruthy tf with
      | none => .ok none
      | some t => (validateQuery t).map some : Except QSErr (Option String)) <;> rfl

/-- `query_recent` only appends audit rows. -/
theorem runQueryRecent_frame (db : DB) (now : ℤ) (tf : Option String)
    (l : LimitArg) (days : ℤ) (t : Bool) :
    KnowledgePreserved db (runQueryRecent db now tf l days t).2
    ∧ ∃ new, (runQueryRecent db now tf l days t).2.buildingQueries
        = db.buildingQueries ++ new := by
  unfold runQueryRecent
  cases validateLimit l
  · exact appendAudit_frame db t _
  · cases (match optTruthy tf with
      | none => .ok none
      | some t => (validateQuery t).map some : Except QSErr (Option String))
    · exact appendAudit_frame db t _
    · exact appendAudit_frame db t _

/-- `get_decisions`: result independent of telemetry. -/
theorem runGetDecisions_result (db : DB) (d : Option String) (st : String)
    (l : LimitArg) (t₁ t₂ : Bool) :
    (runGetDecisions db d st l t₁).1 = (runGetDecisions db d st l t₂).1 := by
  unfold runGetDecisions
  cases validateLimit l
  · rfl
  · cases (match optTruthy d with
      | none => .ok none
      | some x => (validateDomain x).map some : Except QSErr (Option String)) <;> rfl

/-- `get_decisions` only appends audit rows. -/
theorem runGetDecisions_frame (db : DB) (d : Option String) (st : String)
    (l : LimitArg) (t : Bool) :
    KnowledgePreserved db (runGetDecisions db d st l t).2
    ∧ ∃ new, (runGetDecisions db d st l t).2.buildingQueries
        = db.buildingQueries ++ new := by
  unfold runGetDecisions
  cases validateLimit l
  · exact appendAudit_frame db t _
  · cases (match optTruthy d with
      | none => .ok none
      | some x => (validateDomain x).map some : Except QSErr (Option String))
    · exact appendAudit_frame db t _
    · exact appendAudit_frame db t _

/-- `get_invariants`: result independent of telemetry. -/
theorem runGetInvariants_result (db : DB) (d : Option String) (st : Option String)
    (sc sv : Option String) (l : LimitArg) (t₁ t₂ : Bool) :
    (runGetInvariants db d st sc sv l t₁).1 = (runGetInvariants db d st sc sv l t₂).1 := by
  unfold runGetInvariants
  cases validateLimit l
  · rfl
  · cases (match optTruthy d with
      | none => .ok none
      | some x => (validateDomain x).map some : Except QSErr (Option String)) <;> rfl

/-- `get_invariants` only appends audit rows. -/
theorem runGetInvariants_frame (db : DB) (d : Option String) (st : Option String)
    (sc sv : Option String) (l : LimitArg) (t : Bool) :
    KnowledgePreserved db (runGetInvariants db d st sc sv l t).2
    ∧ ∃ new, (runGetInvariants db d st sc sv l t).2.buildingQueries
        = db.buildingQueries ++ new := by
  unfold runGetInvariants
  cases validateLimit l
  · exact appendAudit_frame db t _
  · cases (match optTruthy d with
      | none => .ok none
      | some x => (validateDomain x).map some : Except QSErr (Option String))
    · exact appendAudit_frame db t _
    · exact appendAudit_frame db t _

/-- `get_assumptions`: result independent of telemetry. -/
theorem runGetAssumptions_result (db : DB) (d : Option String) (st : String)
    (mc : ℚ) (l : LimitArg) (t₁ t₂ : Bool) :
    (runGetAssumptions db d st mc l t₁).1 = (runGetAssumptions db d st mc l t₂).1 := by
  unfold runGetAssumptions
  cases validateLimit l
  · rfl
  · cases (match optTruthy d with
      | none => .ok none
      | some x => (validateDomain x).map some : Except QSErr (Option String)) <;> rfl

/-- `get_assumptions` only appends audit rows. -/
theorem runGetAssumptions_frame (db : DB) (d : Option String) (st : String)
    (mc : ℚ) (l : LimitArg) (t : Bool) :
    KnowledgePreserved db (runGetAssumptions db d st mc l t).2
    ∧ ∃ new, (runGetAssumptions db d st mc l t).2.buildingQueries
        = db.buildingQueries ++ new := by
  unfold runGetAssumptions
  cases validateLimit l
  · exact appendAudit_frame db t _
  · cases (match optTruthy d with
      | none => .ok none
      | some x => (validateDomain x).map some : Except QSErr (Option String))
    · exact appendAudit_frame db t _
    · exact appendAudit_frame db t _

/-- `get_challenged_assumptions` leaves the store untouched entirely
(no telemetry in the source). -/
theorem runChallengedAssumptions_frame (db : DB) (d : Option String) (l : LimitArg) :
    KnowledgePreserved db (runChallengedAssumptions db d l).2
    ∧ ∃ new, (runChallengedAssumptions db d l).2.buildingQueries
        = db.buildingQueries ++ new := by
  unfold runChallengedAssumptions
  cases validateLimit l
  · exact ⟨knowledgePreserved_refl db, [], (List.append_nil _).symm⟩
  · cases (match optTruthy d with
      | none => .ok none
      | some x => (validateDomain x).map some : Except QSErr (Option String))
    · exact ⟨knowledgePreserved_refl db, [], (List.append_nil _).symm⟩
    · exact ⟨knowledgePreserved_refl db, [], (List.append_nil _).symm⟩

/-- `get_spike_reports`: result independent of telemetry. -/
theorem runGetSpikeReports_result (db : DB) (d : Option String)
    (ts : Option (List String)) (se : Option String) (l : LimitArg) (t₁ t₂ : Bool) :
    (runGetSpikeReports db d ts se l t₁).1 = (runGetSpikeReports db d ts se l t₂).1 := by
  unfold runGetSpikeReports
  cases validateLimit l
  · rfl
  · cases (match optTruthy d with
      | none => .ok none
      | some x => (validateDomain x).map some : Except QSErr (Option String))
    · rfl
    · cases (match optListTruthy ts with
        | none => .ok none
        | some xs => (validateTags xs).map some : Except QSErr (Option (List String))) <;> rfl

/-- `get_spike_reports` only appends audit rows. -/
theorem runGetSpikeReports_frame (db : DB) (d : Option String)
    (ts : Option (List String)) (se : Option String) (l : LimitArg) (t : Bool) :
    KnowledgePreserved db (runGetSpikeReports db d ts se l t).2
    ∧ ∃ new, (runGetSpikeReports db d ts se l t).2.buildingQueries
        = db.buildingQueries ++ new := by
  unfold runGetSpikeReports
  cases validateLimit l
  · exact appendAudit_frame db t _
  · cases (match optTruthy d with
      | none => .ok none
      | some x => (validateDomain x).map some : Except QSErr (Option String))
    · exact appendAudit_frame db t _
    · cases (match optListTruthy ts with
        | none => .ok none
        | some xs => (validateTags xs).map some : Except QSErr (Option (List String)))
      · exact appendAudit_frame db t _
      · exact appendAudit_frame db t _

/-- `build_context`: result independent of telemetry. -/
theorem runBuildContext_result (db : DB) (now : ℤ) (task : String)
    (d : Option String) (ts : Option (List String)) (m : ℤ) (t₁ t₂ : Bool) :
    (runBuildContext db now task d ts m t₁).1 = (runBuildContext db now task d ts m t₂).1 := by
  unfold runBuildContext
  cases buildContext db now task d ts m <;> rfl

/-- `build_context` only appends audit rows. -/
theorem runBuildContext_frame (db : DB) (now : ℤ) (task : String)
    (d : Option String) (ts : Option (List String)) (m : ℤ) (t : Bool) :
    KnowledgePreserved db (runBuildContext db now task d ts m t).2
    ∧ ∃ new, (runBuildContext db now task d ts m t).2.buildingQueries
        = db.buildingQueries ++ new := by
  unfold runBuildContext
  cases buildContext db now task d ts m
  · exact appendAudit_frame db t _
  · exact appendAudit_frame db t _

/-- C5: forcing the telemetry write to fail never changes the value a
public query or context call returns (and, the calls being total functions
into `Except`, it never turns a success into a raise). -/
theorem C5_telemetry_transparent (db : DB) (now : ℤ) (op : EngineOp) :
    (runOp db now op true).1 = (runOp db now op false).1 := by
  cases op with
  | byDomain d l =>
    show ((runQueryByDomain db d l true).1.map OpResult.domainRes)
        = ((runQueryByDomain db d l false).1.map OpResult.domainRes)
    rw [runQueryByDomain_result db d l true false]
  | byTags ts l =>
    show ((runQueryByTags db ts l true).1.map OpResult.learningList)
        = ((runQueryByTags db ts l false).1.map OpResult.learningList)
    rw [runQueryByTags_result db ts l true false]
  | recent tf l days =>
    show ((runQueryRecent db now tf l days true).1.map OpResult.learningList)
        = ((runQueryRecent db now tf l days false).1.map OpResult.learningList)
    rw [runQueryRecent_result db now tf l days true false]
  | activeExperiments => rfl
  | pendingCeoReviews => rfl
  | decisionsOp d st l =>
    show ((runGetDecisions db d st l true).1.map OpResult.decisionList)
        = ((runGetDecisions db d st l false).1.map OpResult.decisionList)
    rw [runGetDecisions_result db d st l true false]
  | invariantsOp d st sc sv l =>
    show ((runGetInvariants db d st sc sv l true).1.map OpResult.invariantList)
        = ((runGetInvariants db d st sc sv l false).1.map OpResult.invariantList)
    rw [runGetInvariants_result db d st sc sv l true false]
  | assumptionsOp d st mc l =>
    show ((runGetAssumptions db d st mc l true).1.map OpResult.assumptionList)
        = ((runGetAssumptions db d st mc l false).1.map OpResult.assumptionList)
    rw [runGetAssumptions_result db d st mc l true false]
  | challengedOp d l => rfl
  | spikesOp d ts se l =>
    show ((runGetSpikeReports db d ts se l true).1.map OpResult.spikeList)
        = ((runGetSpikeReports db d ts se l false).1.map OpResult.spikeList)
    rw [runGetSpikeReports_result db d ts se l true false]
  | contextOp task d ts m =>
    show ((runBuildContext db now task d ts m true).1.map OpResult.contextText)
        = ((runBuildContext db now task d ts m false).1.map OpResult.contextText)
    rw [runBuildContext_result db now task d ts m true false]

/-- C9: every Engine operation leaves all nine knowledge tables (and the
golden-rules file) unchanged; the only write is appending rows to the
`building_queries` audit table. -/
theorem C9_engine_reads_only (db : DB) (now : ℤ) (op : EngineOp) (t : Bool) :
    KnowledgePreserved db (runOp db now op t).2
    ∧ ∃ new, (runOp db now op t).2.buildingQueries = db.buildingQueries ++ new := by
  cases op with
  | byDomain d l => exact runQueryByDomain_frame db d l t
  | byTags ts l => exact runQueryByTags_frame db ts l t
  | recent tf l days => exact runQueryRecent_frame db now tf l days t
  | activeExperiments => exact appendAudit_frame db t _
  | pendingCeoReviews => exact appendAudit_frame db t _
  | decisionsOp d st l => exact runGetDecisions_frame db d st l t
  | invariantsOp d st sc sv l => exact runGetInvariants_frame db d st sc sv l t
  | assumptionsOp d st mc l => exact runGetAssumptions_frame db d st mc l t
  | challengedOp d l => exact runChallengedAssumptions_frame db d l
  | spikesOp d ts se l => exact runGetSpikeReports_frame db d ts se l t
  | contextOp task d ts m => exact runBuildContext_frame db now task d ts m t

/-! ### C2 and C10: context assembly structure -/

/-- `foldl` over string append, shifting the accumulator out. -/
theorem foldl_append_shift (l : List String) (a : String) :
    l.foldl (fun r s => r ++ s) a = a ++ l.foldl (fun r s => r ++ s) "" := by
  induction l generalizing a with
  | nil => simp [List.foldl]
  | cons x xs ih =>
    simp only [List.foldl]
    rw [ih (a ++ x), ih ("" ++ x)]
    simp [String.append_assoc]

/-- `String.join` distributes over cons. -/
theorem join_cons (s : String) (l : List String) :
    String.join (s :: l) = s ++ String.join l := by
  show (s :: l).foldl (fun r s => r ++ s) "" = s ++ l.foldl (fun r s => r ++ s) ""
  simp only [List.foldl]
  rw [foldl_append_shift l ("" ++ s)]
  simp

/-- `String.join` distributes over append. -/
theorem join_append (l₁ l₂ : List String) :
    String.join (l₁ ++ l₂) = String.join l₁ ++ String.join l₂ := by
  induction l₁ with
  | nil => simp [String.join, List.foldl]
  | cons x xs ih =>
    rw [List.cons_append, join_cons, join_cons, ih, String.append_assoc]

/-- Joining Tier 1 yields the header followed by the golden-rules document
verbatim. -/
theorem join_tier1 (gf : GoldenFile) :
    String.join (tier1Section gf)
      = "# TIER 1: \x1b[93mGolden Rules\x1b[0m\n" ++ (getGoldenRules gf ++ "\n") := by
  unfold tier1Section
  rw [join_cons, join_cons, join_cons]
  simp [String.join, List.foldl]

/-- The assembled context decomposes as banner-and-task block, Tier 1,
Tier 2, gated Tier 3, experiments, CEO reviews — in that order. -/
theorem buildContextStr_decomp (db : DB) (now : ℤ) (task : String)
    (domainArg : Option String) (tagsArg : Option (List String)) (maxTokens : ℤ) :
    buildContextStr db now task domainArg tagsArg maxTokens
      = taskHeaderPart task
        ++ (String.join (tier1Section db.goldenFile)
          ++ (String.join (tier2Block db now task domainArg tagsArg).1
            ++ (String.join (tier3Section db now
                  (if maxTokens > 50000 then 50000 else maxTokens)
                  (preTier3 db now task domainArg tagsArg).2).1
              ++ (String.join (expSection db) ++ String.join (ceoSection db))))) := by
  unfold buildContextStr preTier3
  rw [join_cons]
  rw [show tier1Section db.goldenFile ++ (tier2Block db now task domainArg tagsArg).1
        ++ (tier3Section db now (if maxTokens > 50000 then 50000 else maxTokens)
            (tier1Section db.goldenFile ++ (tier2Block db now task domainArg tagsArg).1,
              (getGoldenRules db.goldenFile).length / 4
                + (tier2Block db now task domainArg tagsArg).2).2).1
        ++ expSection db ++ ceoSection db
      = tier1Section db.goldenFile ++ ((tier2Block db now task domainArg tagsArg).1
        ++ ((tier3Section db now (if maxTokens > 50000 then 50000 else maxTokens)
            (tier1Section db.goldenFile ++ (tier2Block db now task domainArg tagsArg).1,
              (getGoldenRules db.goldenFile).length / 4
                + (tier2Block db now task domainArg tagsArg).2).2).1
        ++ (expSection db ++ ceoSection db)))
      from by simp [List.append_assoc]]
  rw [join_append, join_append, join_append, join_append]

/-- The golden-rules document always follows the fixed banner, task block
and Tier-1 header, whatever the budget and store contents. -/
theorem buildContextStr_docAfterHeader (db : DB) (now : ℤ) (task : String)
    (domainArg : Option String) (tagsArg : Option (List String)) (maxTokens : ℤ) :
    ∃ rest, buildContextStr db now task domainArg tagsArg maxTokens
      = taskHeaderPart task ++ ("# TIER 1: \x1b[93mGolden Rules\x1b[0m\n"
          ++ (getGoldenRules db.goldenFile ++ ("\n" ++ rest))) := by
  refine ⟨String.join (tier2Block db now task domainArg tagsArg).1
    ++ (String.join (tier3Section db now (if maxTokens > 50000 then 50000 else maxTokens)
        (preTier3 db now task domainArg tagsArg).2).1
      ++ (String.join (expSection db) ++ String.join (ceoSection db))), ?_⟩
  rw [buildContextStr_decomp, join_tier1]
  simp [String.append_assoc]

/-- C2 amended: the output does not *begin* with the golden-rule document
(a fixed banner and task-context block comes first), but the document always
appears in full immediately after the Tier-1 header regardless of budget;
the Tier-3 filler is emitted exactly when the clamped budget minus the
running estimate exceeds 500 tokens — in particular never when
`max_tokens ≤ 500` — and the experiments and CEO-review tiers are appended
regardless of the remaining budget. -/
theorem C2_assembly_structure (db : DB) (now : ℤ) (task : String)
    (domainArg : Option String) (tagsArg : Option (List String)) (maxTokens : ℤ) :
    (∃ rest, buildContextStr db now task domainArg tagsArg maxTokens
        = taskHeaderPart task ++ ("# TIER 1: \x1b[93mGolden Rules\x1b[0m\n"
            ++ (getGoldenRules db.goldenFile ++ ("\n" ++ rest))))
    ∧ ((tier3Section db now (if maxTokens > 50000 then 50000 else maxTokens)
            (preTier3 db now task domainArg tagsArg).2).1 ≠ []
        ↔ 500 < (if maxTokens > 50000 then 50000 else maxTokens)
            - ((preTier3 db now task domainArg tagsArg).2 : ℤ))
    ∧ (maxTokens ≤ 500 →
        (tier3Section db now (if maxTokens > 50000 then 50000 else maxTokens)
            (preTier3 db now task domainArg tagsArg).2).1 = [])
    ∧ (∃ front, buildContextStr db now task domainArg tagsArg maxTokens
        = front ++ (String.join (expSection db) ++ String.join (ceoSection db))) := by
  refine ⟨buildContextStr_docAfterHeader db now task domainArg tagsArg maxTokens, ?_, ?_, ?_⟩
  · unfold tier3Section
    by_cases hgate : 500 < (if maxTokens > 50000 then 50000 else maxTokens)
        - ((preTier3 db now task domainArg tagsArg).2 : ℤ)
    · rw [if_pos hgate]
      constructor
      · intro _; exact hgate
      · intro _; exact List.cons_ne_nil _ _
    · rw [if_neg hgate]
      constructor
      · intro hcon; exact absurd rfl hcon
      · intro hcon; exact absurd hcon hgate
  · intro hsmall
    unfold tier3Section
    rw [if_neg]
    omega
  · exact ⟨taskHeaderPart task ++ (String.join (tier1Section db.goldenFile)
      ++ (String.join (tier2Block db now task domainArg tagsArg).1
        ++ String.join (tier3Section db now
            (if maxTokens > 50000 then 50000 else maxTokens)
            (preTier3 db now task domainArg tagsArg).2).1)),
      by rw [buildContextStr_decomp]; simp [String.append_assoc]⟩

/-- C2 witness: the 50-token scenario on a store with a short golden-rules
document. -/
theorem C2_assembly_structure_witness :
    (∃ rest, buildContextStr emptyDB 0 "fix login bug" (some "auth") none 50
        = taskHeaderPart "fix login bug" ++ ("# TIER 1: \x1b[93mGolden Rules\x1b[0m\n"
            ++ (getGoldenRules emptyDB.goldenFile ++ ("\n" ++ rest))))
    ∧ ((tier3Section emptyDB 0 (if (50 : ℤ) > 50000 then 50000 else 50)
            (preTier3 emptyDB 0 "fix login bug" (some "auth") none).2).1 ≠ []
        ↔ 500 < (if (50 : ℤ) > 50000 then 50000 else 50)
            - ((preTier3 emptyDB 0 "fix login bug" (some "auth") none).2 : ℤ))
    ∧ ((50 : ℤ) ≤ 500 →
        (tier3Section emptyDB 0 (if (50 : ℤ) > 50000 then 50000 else 50)
            (preTier3 emptyDB 0 "fix login bug" (some "auth") none).2).1 = [])
    ∧ (∃ front, buildContextStr emptyDB 0 "fix login bug" (some "auth") none 50
        = front ++ (String.join (expSection emptyDB) ++ String.join (ceoSection emptyDB))) :=
  C2_assembly_structure emptyDB 0 "fix login bug" (some "auth") none 50

/-- C2 counterexample: at the spec's own scenario (valid task, tiny budget),
the returned string does not begin with the golden-rule document: the
building-status banner and task-context block come first. -/
theorem C2_not_golden_first :
    buildContext emptyDB 0 "fix login bug" (some "auth") none 50
      = .ok (buildContextStr emptyDB 0 "fix login bug" (some "auth") none 50)
    ∧ isPrefixB (getGoldenRules emptyDB.goldenFile).toList
        (buildContextStr emptyDB 0 "fix login bug" (some "auth") none 50).toList
      = false := by
  constructor
  · rfl
  · decide

/-- C10: `get_golden_rules` is total — a missing file yields the fixed
placeholder document, a failing read yields an error-text document, a
successful read yields the contents — and Tier 1 of the assembled context
therefore always carries a non-empty document even with no golden-rules
file on disk. -/
theorem C10_golden_rules_total :
    getGoldenRules none = "# Golden Rules\n\nNo golden rules have been established yet."
    ∧ (∀ e, getGoldenRules (some (.error e))
        = "# Error Reading Golden Rules\n\nError: " ++ e)
    ∧ (∀ c, getGoldenRules (some (.ok c)) = c)
    ∧ getGoldenRules none ≠ ""
    ∧ (∀ (db : DB) (now : ℤ) (task : String) (d : Option String)
          (tg : Option (List String)) (m : ℤ), db.goldenFile = none →
        ∃ rest, buildContextStr db now task d tg m
          = taskHeaderPart task ++ ("# TIER 1: \x1b[93mGolden Rules\x1b[0m\n"
              ++ ("# Golden Rules\n\nNo golden rules have been established yet."
                  ++ ("\n" ++ rest)))) := by
  refine ⟨rfl, fun e => rfl, fun c => rfl, by decide, ?_⟩
  intro db now task d tg m hgf
  obtain ⟨rest, hr⟩ := buildContextStr_docAfterHeader db now task d tg m
  refine ⟨rest, ?_⟩
  rw [hr, hgf]
  rfl

/-- C10 witness: a failing read and a store with no golden-rules file. -/
theorem C10_golden_rules_total_witness :
    getGoldenRules (some (.error "disk")) = "# Error Reading Golden Rules\n\nError: " ++ "disk"
    ∧ ∃ rest, buildContextStr dbC1 0 "fix" none none 50
        = taskHeaderPart "fix" ++ ("# TIER 1: \x1b[93mGolden Rules\x1b[0m\n"
            ++ ("# Golden Rules\n\nNo golden rules have been established yet."
                ++ ("\n" ++ rest))) :=
  ⟨C10_golden_rules_total.2.1 "disk",
   C10_golden_rules_total.2.2.2.2 dbC1 0 "fix" none none 50 rfl⟩

end ELF
